import Mathlib

/-!
# LocalLifeAssistant — verification of the spec against the source

Shallow embedding of the two core components of the repository:

* `backend/app/services/cache.py` — the three-tier TTL cache
  (`CacheEntry`, `CacheStore.load/save/invalidate/cleanup`);
* `backend/app/services/chat.py` — the chat orchestration service
  (`ChatService.handle_chat` and its helpers).

Modelling conventions:

* Python `datetime` values are abstract timestamps (`Nat`, in unspecified
  units); `datetime.now()` is passed in explicitly as a `now` argument.
  `timedelta` comparisons are done in `Int` so that "future" entries behave
  as in Python (a negative age compares `<` against the ttl).
* `datetime.isoformat` / `datetime.fromisoformat` (Python standard library,
  outside the repository) are modelled as a decimal rendering of the
  timestamp together with its partial-inverse parser; the properties used
  are exactly those of the library pair: the rendering is injective, never
  empty, and parsing inverts it.
* Python exceptions are modelled with `Except PyErr`; a `try/except` block
  of the source is translated at the same place it occurs in the source.
  Fallible disk / remote operations are driven by an explicit `Faults`
  record saying which of them raise.
* Python `dict` payloads are association lists; Python `None`-or-value
  fields are `Option`; Python string falsiness (`not s`) is `s = ""`.
* The collaborators of `ChatService` that are injected through its
  constructor and are not part of the repository's `src`
  (extraction service, search service, usage tracker, conversation
  storage backend, event crawler) are function-valued parameters of the
  model, mirroring the dependency injection of the Python constructor.
-/

namespace LocalLife

/-! ## Timestamp text (model of `datetime.isoformat` / `fromisoformat`) -/

/-- Decimal digit character, `d < 10` intended. -/
def digitChar (d : Nat) : Char := Char.ofNat (48 + d)

/-- Numeric value of a decimal digit character. -/
def charVal (c : Char) : Nat := c.toNat - 48

/-- Structural decimal digit list (least significant first), driven by
fuel so that it evaluates by kernel reduction. -/
def digitsGo : Nat → Nat → List Nat
  | _, 0 => []
  | 0, _ + 1 => []
  | fuel + 1, n + 1 => ((n + 1) % 10) :: digitsGo fuel ((n + 1) / 10)

/-- Decimal digits of `n`, least significant first. -/
def decDigits (n : Nat) : List Nat := digitsGo n n

/-- Models `datetime.isoformat`: an injective, never-empty textual rendering
of a timestamp (decimal, most significant digit first). -/
def isoformat (t : Nat) : String :=
  ⟨if t = 0 then ['0'] else ((decDigits t).map digitChar).reverse⟩

/-- Models `datetime.fromisoformat`: the partial inverse of `isoformat`;
returns `none` on any string that is not a rendering it produces. -/
def fromisoformat (s : String) : Option Nat :=
  if s.data ≠ [] ∧ s.data.all Char.isDigit then
    some (s.data.foldl (fun a c => a * 10 + charVal c) 0)
  else
    none

/-! ## Cache data model (`services/cache.py`) -/

/-- Metadata payload of a cache entry (a Python dict). -/
abbrev Metadata := List (String × String)

/-- `CacheEntry` dataclass: city, list of raw event records (payload type
`ε`), creation timestamp, metadata. -/
structure CacheEntry (ε : Type) where
  city : String
  events : List ε
  cached_at : Nat
  metadata : Metadata
  deriving DecidableEq

/-- The serialized record shape `{city, events, cached_at, count, metadata}`
produced by `CacheEntry.to_dict` and consumed by `CacheEntry.from_dict`.
Each field is optional because `from_dict` reads an arbitrary dict with
`data.get(...)`. -/
structure CacheDict (ε : Type) where
  city : Option String
  events : Option (List ε)
  cached_at : Option String
  count : Option Nat
  metadata : Option Metadata
  deriving DecidableEq

/-- The empty Python dict `{}` viewed as a `CacheDict`. -/
def emptyCacheDict (ε : Type) : CacheDict ε :=
  { city := none, events := none, cached_at := none, count := none, metadata := none }

/-- Python `str(x)` applied to an optional string (`str(None) = "None"`). -/
def pyStr (v : Option String) : String :=
  match v with
  | none => "None"
  | some s => s

/-- `CacheEntry.to_dict`. -/
def CacheEntry.to_dict {ε : Type} (e : CacheEntry ε) : CacheDict ε :=
  { city := some e.city
    events := some e.events
    cached_at := some (isoformat e.cached_at)
    count := some e.events.length
    metadata := some e.metadata }

/-- `CacheEntry.from_dict`: rejects a missing or falsy `cached_at`, parses
the timestamp (any parse failure is caught and yields `None`), and restores
the remaining fields with Python defaulting (`str(...)`, `get(..., [])`,
`get(..., {})`). -/
def CacheEntry.from_dict {ε : Type} (d : CacheDict ε) : Option (CacheEntry ε) :=
  match d.cached_at with
  | none => none
  | some s =>
    if s = "" then none
    else
      match fromisoformat s with
      | none => none
      | some t =>
          some { city := pyStr d.city
                 events := d.events.getD []
                 cached_at := t
                 metadata := d.metadata.getD [] }

/-! ## Cache store state and primitives -/

/-- A disk cache file: `none` models file content that is not valid JSON
(`json.load` raises); `some d` models a parsed JSON record. -/
abbrev DiskFile (ε : Type) := Option (CacheDict ε)

/-- State of the three tiers plus the configured ttl.  The memory tier
holds live `CacheEntry` objects; the disk and remote tiers hold serialized
records keyed by the canonical city key.  A remote document whose
`to_dict()` is `None` is modelled by `none` (the source reads it as
`doc.to_dict() or {}`). -/
structure CacheState (ε : Type) where
  ttl : Int
  memory : List (String × CacheEntry ε)
  disk : List (String × DiskFile ε)
  remote : List (String × Option (CacheDict ε))
  deriving DecidableEq

/-- Which of the fallible tier operations raise, during one call. -/
structure Faults where
  diskReadFail : Bool
  diskWriteFail : Bool
  diskDeleteFail : Bool
  remoteFail : Bool
  deriving DecidableEq

/-- The schedule under which no tier operation fails. -/
def noFaults : Faults :=
  { diskReadFail := false, diskWriteFail := false, diskDeleteFail := false, remoteFail := false }

/-- Python exception classes that matter to the model. -/
inductive PyErr where
  | os
  | remote
  deriving DecidableEq

/-- Models `try: x except: d` — evaluate, and on any error return `d`. -/
def tryOr {α : Type} (x : Except PyErr α) (d : α) : α :=
  match x with
  | .ok a => a
  | .error _ => d

/-- Association-list insert with replacement (dict/file-overwrite). -/
def insertA {β : Type} (k : String) (v : β) (l : List (String × β)) : List (String × β) :=
  (k, v) :: l.filter (fun p => p.1 ≠ k)

/-- Association-list erase (dict `pop` / file delete). -/
def eraseA {β : Type} (k : String) (l : List (String × β)) : List (String × β) :=
  l.filter (fun p => p.1 ≠ k)

/-- Python `str.lower()` (ASCII case mapping, which covers every use in the
source). -/
def pyLower (s : String) : String :=
  ⟨s.data.map fun c => if 65 ≤ c.toNat ∧ c.toNat ≤ 90 then Char.ofNat (c.toNat + 32) else c⟩

/-- Python `str.replace(old, new)` for one-character patterns (the only
shape the source uses). -/
def pyReplaceChar (old new : Char) (s : String) : String :=
  ⟨s.data.map fun c => if c = old then new else c⟩

/-- Python `str.startswith(pre)`. -/
def pyStartsWith (s pre : String) : Bool :=
  pre.data.isPrefixOf s.data

/-- `CacheStore._key`: canonical city key
(`city.lower().replace(" ", "_").replace("/", "_")`). -/
def cacheKey (city : String) : String :=
  pyReplaceChar '/' '_' (pyReplaceChar ' ' '_' (pyLower city))

/-- `CacheStore._is_valid`: `datetime.now() - entry.cached_at < self.ttl`. -/
def isValid {ε : Type} (now : Nat) (ttl : Int) (e : CacheEntry ε) : Bool :=
  decide ((now : Int) - (e.cached_at : Int) < ttl)

/-- `CacheStore._load_from_disk`: absent file is `None`; an I/O error while
reading, unparsable JSON, and a record `from_dict` rejects are all caught
and yield `None`. -/
def loadFromDisk {ε : Type} (f : Faults) (σ : CacheState ε) (key : String) :
    Option (CacheEntry ε) :=
  match σ.disk.lookup key with
  | none => none
  | some file =>
    if f.diskReadFail then none
    else
      match file with
      | none => none
      | some d => CacheEntry.from_dict d

/-- `CacheStore._save_to_disk`: best-effort; a write failure is caught and
leaves the disk tier unchanged. -/
def saveToDisk {ε : Type} (f : Faults) (σ : CacheState ε) (key : String)
    (e : CacheEntry ε) : CacheState ε :=
  if f.diskWriteFail then σ
  else { σ with disk := insertA key (some e.to_dict) σ.disk }

/-- `CacheStore._load_from_firestore`: any remote error is caught and yields
`None`; a present document is decoded through `from_dict(doc.to_dict() or {})`. -/
def loadFromFirestore {ε : Type} (f : Faults) (σ : CacheState ε) (key : String) :
    Option (CacheEntry ε) :=
  if f.remoteFail then none
  else
    match σ.remote.lookup key with
    | none => none
    | some d => CacheEntry.from_dict (d.getD (emptyCacheDict ε))

/-- `CacheStore._save_to_firestore_async`: best-effort; a remote failure is
caught and leaves the remote tier unchanged. -/
def saveToFirestore {ε : Type} (f : Faults) (σ : CacheState ε) (key : String)
    (e : CacheEntry ε) : CacheState ε :=
  if f.remoteFail then σ
  else { σ with remote := insertA key (some e.to_dict) σ.remote }

/-! ## Cache store operations -/

/-- Third phase of `CacheStore.load`: the remote tier; on a valid hit the
entry is promoted into memory and (best-effort) onto disk. -/
def loadPhase3 {ε : Type} (f : Faults) (now : Nat) (σ : CacheState ε) (key : String) :
    Except PyErr (Option (CacheEntry ε) × CacheState ε) :=
  match loadFromFirestore f σ key with
  | some e =>
    if isValid now σ.ttl e then
      let σ1 := { σ with memory := insertA key e σ.memory }
      .ok (some e, saveToDisk f σ1 key e)
    else .ok (none, σ)
  | none => .ok (none, σ)

/-- Second phase of `CacheStore.load`: the disk tier; on a valid hit the
entry is promoted into memory. -/
def loadPhase2 {ε : Type} (f : Faults) (now : Nat) (σ : CacheState ε) (key : String) :
    Except PyErr (Option (CacheEntry ε) × CacheState ε) :=
  match loadFromDisk f σ key with
  | some e =>
    if isValid now σ.ttl e then
      .ok (some e, { σ with memory := insertA key e σ.memory })
    else loadPhase3 f now σ key
  | none => loadPhase3 f now σ key

/-- `CacheStore.load`: memory, then disk, then remote; only a valid entry is
returned from any tier. -/
def CacheStore.load {ε : Type} (f : Faults) (now : Nat) (σ : CacheState ε) (city : String) :
    Except PyErr (Option (CacheEntry ε) × CacheState ε) :=
  let key := cacheKey city
  match σ.memory.lookup key with
  | some e =>
    if isValid now σ.ttl e then .ok (some e, σ)
    else loadPhase2 f now σ key
  | none => loadPhase2 f now σ key

/-- `CacheStore.save`: stamp a fresh entry with the current time, write it
to memory synchronously, then best-effort to disk and to the remote tier;
the entry written to memory is returned. -/
def CacheStore.save {ε : Type} (f : Faults) (now : Nat) (σ : CacheState ε) (city : String)
    (events : List ε) (metadata : Option Metadata) :
    Except PyErr (CacheEntry ε × CacheState ε) :=
  let key := cacheKey city
  let e : CacheEntry ε :=
    { city := city, events := events, cached_at := now, metadata := metadata.getD [] }
  let σ1 := { σ with memory := insertA key e σ.memory }
  let σ2 := saveToDisk f σ1 key e
  let σ3 := saveToFirestore f σ2 key e
  .ok (e, σ3)

/-- Raw disk delete (`Path.unlink`); raises on a disk delete fault.  The
source does **not** wrap this call of `invalidate` in a `try`. -/
def diskUnlink {ε : Type} (f : Faults) (σ : CacheState ε) (key : String) :
    Except PyErr (CacheState ε) :=
  if f.diskDeleteFail then .error .os
  else .ok { σ with disk := eraseA key σ.disk }

/-- Raw remote document delete; raises on a remote fault. -/
def remoteDelete {ε : Type} (f : Faults) (σ : CacheState ε) (key : String) :
    Except PyErr (CacheState ε) :=
  if f.remoteFail then .error .remote
  else .ok { σ with remote := eraseA key σ.remote }

/-- `CacheStore.invalidate`: pop from memory; if the disk file exists,
unlink it (not guarded by a `try` in the source); delete the remote
document inside a `try` that swallows any error. -/
def CacheStore.invalidate {ε : Type} (f : Faults) (σ : CacheState ε) (city : String) :
    Except PyErr (CacheState ε) :=
  let key := cacheKey city
  let σ1 := { σ with memory := eraseA key σ.memory }
  match (if (σ1.disk.lookup key).isSome then diskUnlink f σ1 key else .ok σ1) with
  | .error e => .error e
  | .ok σ2 => .ok (tryOr (remoteDelete f σ2 key) σ2)

/-- Result of re-reading one disk file during the cleanup sweep: mirrors
`_load_from_disk` applied to a file that is known to exist. -/
def parseDiskFile {ε : Type} (f : Faults) (file : DiskFile ε) : Option (CacheEntry ε) :=
  if f.diskReadFail then none
  else
    match file with
    | none => none
    | some d => CacheEntry.from_dict d

/-- Whether the disk sweep of `cleanup` keeps a file: it is kept when it
re-reads as a still-valid entry, or when the attempted `unlink` fails (that
failure is caught as `OSError` and the file simply stays). -/
def diskKeep {ε : Type} (f : Faults) (now : Nat) (ttl : Int) (file : DiskFile ε) : Bool :=
  match parseDiskFile f file with
  | some e => isValid now ttl e
  | none => false

/-- Whether the remote sweep of `cleanup` keeps a document: kept iff it
decodes (through `from_dict(data or {})`) to a still-valid entry. -/
def remoteKeep {ε : Type} (now : Nat) (ttl : Int) (d : Option (CacheDict ε)) : Bool :=
  match CacheEntry.from_dict (d.getD (emptyCacheDict ε)) with
  | some e => isValid now ttl e
  | none => false

/-- The state produced by one `cleanup` sweep: drop expired memory entries;
unlink disk files that do not re-read as valid entries (an unlink failure is
caught per file, leaving the file in place); delete remote documents that do
not decode to valid entries, the whole remote pass being wrapped in a `try`
that swallows failures (modelled as: an unreachable remote leaves the remote
tier untouched). -/
def cleanupState {ε : Type} (f : Faults) (now : Nat) (σ : CacheState ε) : CacheState ε :=
  let σ1 := { σ with memory := σ.memory.filter (fun p => isValid now σ.ttl p.2) }
  let σ2 :=
    { σ1 with
      disk := σ1.disk.filter (fun p => diskKeep f now σ1.ttl p.2 || f.diskDeleteFail) }
  if f.remoteFail then σ2
  else { σ2 with remote := σ2.remote.filter (fun p => remoteKeep now σ2.ttl p.2) }

/-- `CacheStore.cleanup`: every fallible step inside the sweep sits under a
catcher in the source, so the call itself always returns. -/
def CacheStore.cleanup {ε : Type} (f : Faults) (now : Nat) (σ : CacheState ε) :
    Except PyErr (CacheState ε) :=
  .ok (cleanupState f now σ)

/-! ## Chat data model (`services/chat.py`, `api/schemas.py`) -/

/-- A Python value that may or may not be a string (`isinstance(x, str)`). -/
inductive PyVal where
  | str (s : String)
  | other
  deriving DecidableEq

/-- The `{role, content}` shape of a client-supplied history item, read
with `msg.get("role")` / `msg.get("content")`. -/
structure MsgDict where
  role : Option PyVal := none
  content : Option PyVal := none
  deriving DecidableEq

/-- A client-supplied history element: possibly not a dict at all
(`isinstance(msg, dict)` is checked in the source). -/
inductive PyMsg where
  | nonDict
  | dict (d : MsgDict)
  deriving DecidableEq

/-- A well-formed `{role, content}` pair as produced by the service itself. -/
structure Msg where
  role : String
  content : String
  deriving DecidableEq

/-- `UserPreferences` (pydantic model of the extraction service): each field
is a Python string or `None`, with the sentinel string `"none"` meaning
"not determined". -/
structure UserPreferences where
  location : Option String := none
  date : Option String := none
  time : Option String := none
  event_type : Option String := none
  deriving DecidableEq

/-- The serialized `extracted_preferences` dict stored with a turn. -/
structure PrefDict where
  location : Option String := none
  date : Option String := none
  time : Option String := none
  event_type : Option String := none
  deriving DecidableEq

/-- `UserPreferences.dict()`. -/
def prefsToDict (p : UserPreferences) : PrefDict :=
  { location := p.location, date := p.date, time := p.time, event_type := p.event_type }

/-- A raw event record: the fields of the payload dict that the chat
service itself reads, plus the rest of the payload. -/
structure Event where
  title : Option String := none
  relevance_score : Option ℚ := none
  payload : List (String × String) := []
  deriving DecidableEq

/-- One formatted recommendation
`{type, data: {**event, source}, relevance_score, explanation}`. -/
structure Recommendation where
  rtype : String
  data : Event
  source : String
  relevance_score : ℚ
  explanation : String
  deriving DecidableEq

/-- A message dict persisted in conversation storage. -/
structure StoredMsg where
  role : Option PyVal := none
  content : Option PyVal := none
  timestamp : String := ""
  extracted_preferences : Option PrefDict := none
  recommendations : Option (List Recommendation) := none
  cache_used : Option Bool := none
  cache_age_hours : Option (Option ℚ) := none
  deriving DecidableEq

/-- A stored conversation element: possibly not a dict
(`isinstance(message, dict)` is checked in the source). -/
inductive StoredItem where
  | nonDict
  | dict (m : StoredMsg)
  deriving DecidableEq

/-- Conversation storage: per `(user_id, conversation_id)` the ordered list
of persisted message dicts. -/
abbrev ConvStore := List ((String × String) × List StoredItem)

/-- `ChatRequest` (pydantic schema). -/
structure ChatRequest where
  message : String
  conversation_history : List PyMsg := []
  llm_provider : String := "openai"
  is_initial_response : Bool := false
  user_id : String
  conversation_id : Option String := none
  deriving DecidableEq

/-- Usage statistics payload returned by the usage tracker. -/
abbrev Usage := List (String × Nat)

/-- `ChatOutcome` dataclass. -/
structure ChatOutcome where
  message : String
  recommendations : List Recommendation
  cache_used : Bool
  cache_age_hours : Option ℚ
  extracted_preferences : Option UserPreferences
  extraction_summary : Option String
  usage_stats : Option Usage
  trial_exceeded : Bool
  conversation_id : String
  deriving DecidableEq

/-- External side effects performed by one `handle_chat` call, in order. -/
inductive Effect where
  | checkTrial (uid : String)
  | getUsage (uid : String)
  | incUsage (uid : String)
  | createConv (uid : String)
  | extractCall (message : String) (history : List Msg)
  | saveMsg (uid cid : String) (m : StoredItem)
  | updateMeta (uid cid : String)
  | fetchEvents (city : String)
  | rankCall (query : String) (n : Nat)
  deriving DecidableEq

/-- The collaborators injected through the `ChatService` constructor.  The
implementations behind them (extraction service, search service, usage
tracker, event crawler, conversation-id generation of the storage backend)
are outside the repository's core source and are therefore parameters of
the model. -/
structure Deps where
  check_trial_limit : String → Bool
  trial_limit : Nat
  get_usage : String → Usage
  increment_usage : String → Usage
  fresh_conv_id : String
  now_iso : String
  extract_user_preferences : String → List Msg → UserPreferences
  extract_location_from_query : String → Option String
  get_cached_events : String → Option (List Event)
  get_cache_age : String → Option ℚ
  rank : String → List Event → PrefDict → List Event

/-! ## Chat helper functions -/

/-- Python truthiness of an optional string (`None` and `""` are falsy). -/
def pyTruthy (v : Option String) : Bool :=
  match v with
  | none => false
  | some s => !(s == "")

/-- The gap test of the merge step:
`not value or value == "none"`. -/
def prefGap (v : Option String) : Bool :=
  match v with
  | none => true
  | some s => s == "" || s == "none"

/-- One fill-gaps-only merge:
`if stored_value and (not value or value == "none"): value = stored_value`. -/
def fillGap (extracted stored : Option String) : Option String :=
  if pyTruthy stored && prefGap extracted then stored else extracted

/-- Python `lst[-n:]`. -/
def takeLast {α : Type} (n : Nat) (l : List α) : List α :=
  l.drop (l.length - n)

/-- `ConversationHistory.prepend` with its window: insert at the front,
then keep only the last `window` elements. -/
def histPrepend (window : Nat) (msgs : List Msg) (role content : String) : List Msg :=
  let m := { role := role, content := content } :: msgs
  if window < m.length then takeLast window m else m

/-- `StoredPreferences` dataclass. -/
structure StoredPreferences where
  location : Option String := none
  event_type : Option String := none
  date : Option String := none
  time : Option String := none
  deriving DecidableEq

/-- `StoredPreferences.is_complete`. -/
def StoredPreferences.is_complete (s : StoredPreferences) : Bool :=
  pyTruthy s.location && pyTruthy s.event_type && pyTruthy s.date && pyTruthy s.time

/-- One field update of `_lookup_stored_preferences`:
`if v and v.lower() != "none" and not stored_field: stored_field = v`. -/
def storedFieldUpdate (current : Option String) (v : Option String) : Option String :=
  match v with
  | none => current
  | some s =>
    if s ≠ "" ∧ s.toLower ≠ "none" ∧ ¬ pyTruthy current then some s else current

/-- Fold one stored message dict into the accumulating `StoredPreferences`. -/
def storedUpdate (st : StoredPreferences) (m : StoredMsg) : StoredPreferences :=
  match m.extracted_preferences with
  | none => st
  | some p =>
    { location := storedFieldUpdate st.location p.location
      event_type := storedFieldUpdate st.event_type p.event_type
      date := storedFieldUpdate st.date p.date
      time := storedFieldUpdate st.time p.time }

/-- The loop body of `_lookup_stored_preferences`, processing the stored
messages newest first: non-dict items are skipped; a `{role, content}` pair
with a recognised role and string content is prepended to the history
window; preference fields are filled newest-wins; the loop breaks once the
stored preferences are complete. -/
def lookupLoop : List StoredItem → StoredPreferences → List Msg →
    StoredPreferences × List Msg
  | [], st, h => (st, h)
  | item :: rest, st, h =>
    match item with
    | .nonDict => lookupLoop rest st h
    | .dict m =>
      let h' :=
        match m.role, m.content with
        | some (.str r), some (.str c) =>
          if r = "user" ∨ r = "assistant" then histPrepend 10 h r c else h
        | _, _ => h
      let st' := storedUpdate st m
      if st'.is_complete then (st', h') else lookupLoop rest st' h'

/-- `ChatService._lookup_stored_preferences`: an absent (or falsy)
conversation yields empty results; otherwise the stored messages are
scanned newest first. -/
def lookupStored (conv : Option (List StoredItem)) : StoredPreferences × List Msg :=
  match conv with
  | none => ({}, [])
  | some msgs => lookupLoop msgs.reverse {} []

/-- A client history item admitted into the extraction window: must be a
dict, with role `"user"` or `"assistant"` and a string content. -/
def reqMsgOk (m : PyMsg) : Option Msg :=
  match m with
  | .nonDict => none
  | .dict d =>
    match d.role, d.content with
    | some (.str r), some (.str c) =>
      if r = "user" || r = "assistant" then some { role := r, content := c } else none
    | _, _ => none

/-- The append loop of `_extract_preferences`: walk the last-6 window of the
client history, appending admitted items not already seen (by
`(role, content)` pair). -/
def appendDedup (acc seen : List Msg) : List PyMsg → List Msg
  | [] => acc
  | m :: rest =>
    match reqMsgOk m with
    | none => appendDedup acc seen rest
    | some mm =>
      if mm ∈ seen then appendDedup acc seen rest
      else appendDedup (acc ++ [mm]) (mm :: seen) rest

/-- The history window handed to the preference extractor: the stored
window as-is when the request carries no history; otherwise the stored
window extended by the deduplicated last six client items and truncated to
the last six. -/
def combinedHistory (reqHist : List PyMsg) (histMsgs : List Msg) : List Msg :=
  if reqHist.isEmpty then histMsgs
  else
    let combined := appendDedup histMsgs histMsgs (takeLast 6 reqHist)
    if 6 < combined.length then takeLast 6 combined else combined

/-- The list scanned for a query-derived location: the stored window (as
dicts), then the raw client history, then the current message as a user
turn. -/
def historyForCity (req : ChatRequest) (histMsgs : List Msg) : List PyMsg :=
  (histMsgs.map fun m => PyMsg.dict { role := some (.str m.role), content := some (.str m.content) })
    ++ req.conversation_history
    ++ [PyMsg.dict { role := some (.str "user"), content := some (.str req.message) }]

/-- The location scan of `_extract_preferences`: walk the (already
reversed, most recent first) list, and on each user turn with string
content run the lightweight location detector; the first truthy hit wins. -/
def scanCity (locq : String → Option String) : List PyMsg → Option String
  | [] => none
  | m :: rest =>
    match m with
    | .nonDict => scanCity locq rest
    | .dict d =>
      if d.role = some (.str "user") then
        match d.content with
        | some (.str c) =>
          match locq c with
          | some city => if city = "" then scanCity locq rest else some city
          | none => scanCity locq rest
        | _ => scanCity locq rest
      else scanCity locq rest

/-- `ChatService._extract_preferences`: call the extractor on the message
plus the combined window, fill gaps from stored preferences, then let a
query-derived location (most recent first) override the location, falling
back to the stored location to fill a remaining gap. -/
def extractPreferences (d : Deps) (req : ChatRequest) (stored : StoredPreferences)
    (histMsgs : List Msg) : UserPreferences :=
  let p0 := d.extract_user_preferences req.message (combinedHistory req.conversation_history histMsgs)
  let p1 :=
    { p0 with
      event_type := fillGap p0.event_type stored.event_type
      date := fillGap p0.date stored.date
      time := fillGap p0.time stored.time }
  match scanCity d.extract_location_from_query (historyForCity req histMsgs).reverse with
  | some c => { p1 with location := some c }
  | none => { p1 with location := fillGap p1.location stored.location }

/-- `ChatService._determine_city`: extractor location if concrete; else a
query-derived location from the current message (also written back into the
preferences); else the stored location; else the `"new york"` default with
`location_provided = False`. -/
def determineCity (d : Deps) (req : ChatRequest) (p : UserPreferences)
    (storedLoc : Option String) : String × Bool × UserPreferences :=
  if pyTruthy p.location && !(p.location == some "none") then
    (pyLower (p.location.getD ""), true, p)
  else
    match d.extract_location_from_query req.message with
    | some q =>
      if q = "" then
        match storedLoc with
        | some s => if s = "" then ("new york", false, p) else (pyLower s, true, p)
        | none => ("new york", false, p)
      else (pyLower q, true, { p with location := some q })
    | none =>
      match storedLoc with
      | some s => if s = "" then ("new york", false, p) else (pyLower s, true, p)
      | none => ("new york", false, p)

/-- `ChatService._fetch_events` through the cache manager: events are the
cached list or `[]`; the age is only consulted when events exist;
`cache_used` is the Python truthiness of `age and age > 0`. -/
def fetchEventsStep (d : Deps) (city : String) : List Event × Bool × Option ℚ :=
  let events := (d.get_cached_events city).getD []
  let age := if events.isEmpty then none else d.get_cache_age city
  let used :=
    match age with
    | some a => decide (0 < a)
    | none => false
  (events, used, age)

/-- Python `str.title()` (ASCII case mapping): uppercase a letter starting
a letter-run, lowercase the rest. -/
def pyTitleGo : Bool → List Char → List Char
  | _, [] => []
  | prevAlpha, c :: cs =>
    let c' := if c.isAlpha then (if prevAlpha then c.toLower else c.toUpper) else c
    c' :: pyTitleGo c.isAlpha cs

/-- Python `str.title()`. -/
def pyTitle (s : String) : String := ⟨pyTitleGo false s.data⟩

/-- `ChatService._format_recommendations`. -/
def formatRecommendations (city : String) (events : List Event) (cache_used : Bool) :
    List Recommendation :=
  events.map fun ev =>
    { rtype := "event"
      data := ev
      source := if cache_used then "cached" else "realtime"
      relevance_score := ev.relevance_score.getD (1 / 2)
      explanation := "Event in " ++ pyTitle city ++ ": " ++ ev.title.getD "Unknown Event" }

/-- `ChatService._compose_response`. -/
def composeResponse (city : String) (events : List Event) (location_provided : Bool) : String :=
  let note :=
    if !location_provided && city == "new york" then
      " (I couldn't determine your location, so I'm defaulting to New York)"
    else ""
  if events.isEmpty then
    "😔 I couldn't find any events in " ++ pyTitle city ++ " matching your query." ++ note ++
      " Try asking about 'fashion events', 'music concerts', 'halloween parties', or 'free events'."
  else
    "🎉 Found " ++ toString events.length ++ " events in " ++ pyTitle city ++
      " that match your search!" ++ note ++ " Check out the recommendations below ↓"

/-- One summary part: included iff the field is truthy and not `"none"`. -/
def summaryPart (tag : String) (v : Option String) : List String :=
  match v with
  | none => []
  | some s => if s ≠ "" ∧ s ≠ "none" then [tag ++ " " ++ s] else []

/-- `ChatService._build_extraction_summary` on a present preference set. -/
def buildExtractionSummary (p : UserPreferences) : Option String :=
  let parts :=
    summaryPart "📍" p.location ++ summaryPart "📅" p.date ++
      summaryPart "🕐" p.time ++ summaryPart "🎭" p.event_type
  if parts.isEmpty then none else some (String.intercalate " • " parts)

/-- The fixed clarification prompt of the missing-location branch. -/
def cityPrompt : String :=
  "I'd be happy to help you find events! To give you the best recommendations, could you please tell me which city or area you're interested in? (e.g., 'New York', 'Los Angeles', 'Chicago', or a zipcode)"

/-- Append one message to a `(user, conversation)` log, creating the
conversation when absent. -/
def convSave (σ : ConvStore) (uid cid : String) (m : StoredItem) : ConvStore :=
  if (σ.lookup (uid, cid)).isSome then
    σ.map fun p => if p.1 = (uid, cid) then (p.1, p.2 ++ [m]) else p
  else σ ++ [((uid, cid), [m])]

/-- `create_conversation` of the storage backend: register a fresh empty
conversation. -/
def convCreate (σ : ConvStore) (uid cid : String) : ConvStore :=
  if (σ.lookup (uid, cid)).isSome then σ else σ ++ [((uid, cid), [])]

/-! ## `handle_chat` -/

/-- The trial-exceeded short-circuit message. -/
def trialMessage (limit : Nat) : String :=
  "🔒 You've reached your free trial limit of " ++ toString limit ++
    " interactions! Please register to continue using our service and keep your conversation history."

/-- The conversation-id resolution step of `handle_chat`: a falsy
(`None`/empty) request id makes the storage backend create a fresh
conversation; otherwise the supplied id is used as-is. -/
def resolveConv (d : Deps) (σ : ConvStore) (req : ChatRequest) :
    String × ConvStore × List Effect :=
  match req.conversation_id with
  | none =>
    (d.fresh_conv_id, convCreate σ req.user_id d.fresh_conv_id, [.createConv req.user_id])
  | some c =>
    if c = "" then
      (d.fresh_conv_id, convCreate σ req.user_id d.fresh_conv_id, [.createConv req.user_id])
    else (c, σ, [])

/-- The body of `handle_chat` past the trial gate: resolve the
conversation id, look up stored preferences and history, extract and merge
preferences, persist the user turn, then either stop with the
missing-location clarification (initial turns only) or search, respond and
persist the assistant turn. -/
def handleChatMain (d : Deps) (σ : ConvStore) (req : ChatRequest)
    (usage_stats : Option Usage) (tr0 : List Effect) :
    ChatOutcome × ConvStore × List Effect :=
  let uid := req.user_id
  let rc := resolveConv d σ req
  let cid := rc.1
  let σ1 := rc.2.1
  let tr1 := tr0 ++ rc.2.2
  let sh := lookupStored (σ1.lookup (uid, cid))
  let stored := sh.1
  let histMsgs := sh.2
  let combined := combinedHistory req.conversation_history histMsgs
  let prefs := extractPreferences d req stored histMsgs
  let tr2 := tr1 ++ [.extractCall req.message combined]
  let userMsg : StoredItem :=
    .dict { role := some (.str "user"), content := some (.str req.message)
            timestamp := d.now_iso, extracted_preferences := some (prefsToDict prefs) }
  let σ2 := convSave σ1 uid cid userMsg
  let tr3 := tr2 ++ [.saveMsg uid cid userMsg]
  let cp := determineCity d req prefs stored.location
  let city := cp.1
  let provided := cp.2.1
  let prefs2 := cp.2.2
  if req.is_initial_response && !provided then
    ({ message := cityPrompt
       recommendations := []
       cache_used := false
       cache_age_hours := none
       extracted_preferences := some prefs2
       extraction_summary := none
       usage_stats := usage_stats
       trial_exceeded := false
       conversation_id := cid }, σ2, tr3)
  else
    let fca := fetchEventsStep d city
    let events := fca.1
    let cache_used := fca.2.1
    let age := fca.2.2
    let ranked := d.rank req.message events (prefsToDict prefs2)
    let recs := formatRecommendations city ranked cache_used
    let msg := composeResponse city ranked provided
    let summary := buildExtractionSummary prefs2
    let asstMsg : StoredItem :=
      .dict { role := some (.str "assistant"), content := some (.str msg)
              timestamp := d.now_iso, extracted_preferences := some (prefsToDict prefs2)
              recommendations := some recs, cache_used := some cache_used
              cache_age_hours := some age }
    let σ3 := convSave σ2 uid cid asstMsg
    let tr4 := tr3 ++ [.fetchEvents city, .rankCall req.message events.length,
      .saveMsg uid cid asstMsg, .updateMeta uid cid]
    ({ message := msg
       recommendations := recs
       cache_used := cache_used
       cache_age_hours := age
       extracted_preferences := some prefs2
       extraction_summary := summary
       usage_stats := usage_stats
       trial_exceeded := false
       conversation_id := cid }, σ3, tr4)

/-- `ChatService.handle_chat`: the anonymous-user trial gate, then the main
body.  The returned triple is (outcome, final conversation storage, ordered
trace of collaborator side effects). -/
def handle_chat (d : Deps) (σ : ConvStore) (req : ChatRequest) :
    ChatOutcome × ConvStore × List Effect :=
  let uid := req.user_id
  if pyStartsWith uid "user_" then
    if d.check_trial_limit uid then
      ({ message := trialMessage d.trial_limit
         recommendations := []
         cache_used := false
         cache_age_hours := none
         extracted_preferences := none
         extraction_summary := none
         usage_stats := some (d.get_usage uid)
         trial_exceeded := true
         conversation_id := "temp" }, σ, [.checkTrial uid, .getUsage uid])
    else
      handleChatMain d σ req (some (d.increment_usage uid)) [.checkTrial uid, .incUsage uid]
  else
    handleChatMain d σ req none []

/-! ## Effect classifiers -/

/-- Whether an effect is an event fetch (a search against cache/source). -/
def Effect.isFetch : Effect → Bool
  | .fetchEvents _ => true
  | _ => false

/-- Whether an effect is a ranking call. -/
def Effect.isRank : Effect → Bool
  | .rankCall _ _ => true
  | _ => false

/-- Whether an effect is a persistence write (message save or metadata
update). -/
def Effect.isPersist : Effect → Bool
  | .saveMsg _ _ _ => true
  | .updateMeta _ _ => true
  | _ => false

/-- Whether an effect is an extraction call. -/
def Effect.isExtract : Effect → Bool
  | .extractCall _ _ => true
  | _ => false

/-- The history list carried by an extraction effect. -/
def Effect.extractHistory : Effect → Option (List Msg)
  | .extractCall _ h => some h
  | _ => none

/-- The role string of a persisted item, when it is a dict with a string
role. -/
def StoredItem.roleStr : StoredItem → Option String
  | .dict m =>
    match m.role with
    | some (.str r) => some r
    | _ => none
  | .nonDict => none

/-! ## Concrete instances used by witnesses and counterexamples -/

/-- A sample cache entry for the witnesses. -/
def e0W : CacheEntry Nat := { city := "Boston", events := [1, 2], cached_at := 3, metadata := [] }

/-- A store whose only copy of the sample entry sits in the disk tier. -/
def σdW : CacheState Nat :=
  { ttl := 5, memory := [], disk := [("boston", some e0W.to_dict)], remote := [] }

/-- A store with a corrupt disk record and a valid remote copy. -/
def σcW : CacheState Nat :=
  { ttl := 5, memory := [], disk := [("boston", none)], remote := [("boston", some e0W.to_dict)] }

/-- The fault schedule in which only the disk delete raises. -/
def fDW : Faults :=
  { diskReadFail := false, diskWriteFail := false, diskDeleteFail := true, remoteFail := false }

/-- Entries for the cleanup witness: one expired, one fresh at `now = 10`,
`ttl = 5`. -/
def eAW : CacheEntry Nat := { city := "a", events := [], cached_at := 0, metadata := [] }

/-- The fresh entry of the cleanup witness. -/
def eBW : CacheEntry Nat := { city := "b", events := [], cached_at := 8, metadata := [] }

/-- Cleanup witness state: every tier holds the expired entry (the disk and
remote copies of key `"a"` are corrupt records) and the fresh entry. -/
def σ8W : CacheState Nat :=
  { ttl := 5
    memory := [("a", eAW), ("b", eBW)]
    disk := [("a", none), ("b", some eBW.to_dict)]
    remote := [("a", none), ("b", some eBW.to_dict)] }

/-- Which single tier holds the (serialized, for disk/remote) entry. -/
inductive Tier where
  | memory
  | disk
  | remote

/-- The entry for `key` sits in exactly the named tier (serialized via
`to_dict` in the disk and remote tiers), and the other tiers miss. -/
def holdsOnlyIn {ε : Type} (σ : CacheState ε) (key : String) (e : CacheEntry ε) :
    Tier → Prop
  | .memory =>
    σ.memory.lookup key = some e ∧ σ.disk.lookup key = none ∧ σ.remote.lookup key = none
  | .disk =>
    σ.memory.lookup key = none ∧ σ.disk.lookup key = some (some e.to_dict)
      ∧ σ.remote.lookup key = none
  | .remote =>
    σ.memory.lookup key = none ∧ σ.disk.lookup key = none
      ∧ σ.remote.lookup key = some (some e.to_dict)

/-- Collaborators whose extractor finds nothing: every preference comes
back `"none"`, the location detector never fires, the cache is empty, the
ranker is the identity. -/
def dNW : Deps :=
  { check_trial_limit := fun _ => false
    trial_limit := 3
    get_usage := fun _ => [("count", 1)]
    increment_usage := fun _ => [("count", 1)]
    fresh_conv_id := "conversation-1"
    now_iso := "2025-01-01T00:00:00"
    extract_user_preferences := fun _ _ =>
      { location := some "none", date := some "none", time := some "none",
        event_type := some "none" }
    extract_location_from_query := fun _ => none
    get_cached_events := fun _ => none
    get_cache_age := fun _ => none
    rank := fun _ e _ => e }

/-- Collaborators for the merge witness: the extractor reports
`event_type = "concert"`, `location = "none"`; the location detector fires
exactly on the message naming Chicago. -/
def dAW : Deps :=
  { dNW with
    extract_user_preferences := fun _ _ =>
      { location := some "none", date := some "none", time := some "none",
        event_type := some "concert" }
    extract_location_from_query := fun s =>
      if s = "find concerts in Chicago" then some "Chicago" else none }

/-- Collaborators at the trial limit. -/
def dTW : Deps := { dNW with check_trial_limit := fun _ => true }

/-- Collaborators for the event-type-ambiguity counterexample: a concrete
location, no event type, one cached event. -/
def dC4W : Deps :=
  { dNW with
    extract_user_preferences := fun _ _ =>
      { location := some "San Francisco", date := some "none", time := some "none",
        event_type := some "none" }
    get_cached_events := fun _ =>
      some [{ title := some "Gallery Opening", relevance_score := some (9 / 10),
              payload := [] }] }

/-- The initial-turn missing-location request of the spec scenario. -/
def reqC5W : ChatRequest :=
  { message := "find me something fun", is_initial_response := true, user_id := "user_1" }

/-- A non-initial turn with no resolvable location. -/
def reqC3W : ChatRequest := { message := "hello", user_id := "u1" }

/-- An anonymous user's request for the trial-gate witness. -/
def reqC6W : ChatRequest := { message := "hello", user_id := "user_999" }

/-- An initial turn whose extractor resolves a location but no event type. -/
def reqC4W : ChatRequest :=
  { message := "something artsy", is_initial_response := true, user_id := "u1" }

/-- A turn whose message names no city. -/
def reqC1aW : ChatRequest := { message := "any concerts?", user_id := "u1" }

/-- A turn whose message names Chicago. -/
def reqC1bW : ChatRequest := { message := "find concerts in Chicago", user_id := "u1" }

/-- Stored preferences carrying only `location = "Boston"`. -/
def storedBW : StoredPreferences := { location := some "Boston" }

/-- One stored user turn. -/
def mkStoredU (c : String) : StoredItem :=
  .dict { role := some (.str "user"), content := some (.str c) }

/-- A conversation already holding seven user turns. -/
def σ9W : ConvStore :=
  [(("u1", "c1"),
    [mkStoredU "m1", mkStoredU "m2", mkStoredU "m3", mkStoredU "m4",
     mkStoredU "m5", mkStoredU "m6", mkStoredU "m7"])]

/-- A follow-up request into that conversation with no client-side history. -/
def reqC9W : ChatRequest := { message := "x", user_id := "u1", conversation_id := some "c1" }

/-- Seven well-formed history messages. -/
def msgs7W : List Msg :=
  [⟨"user", "m1"⟩, ⟨"user", "m2"⟩, ⟨"user", "m3"⟩, ⟨"user", "m4"⟩,
   ⟨"user", "m5"⟩, ⟨"user", "m6"⟩, ⟨"user", "m7"⟩]

/-! ## Lemmas: timestamp text -/

theorem charVal_digitChar {d : Nat} (h : d < 10) : charVal (digitChar d) = d := by
  interval_cases d <;> decide

theorem digitChar_isDigit {d : Nat} (h : d < 10) : (digitChar d).isDigit = true := by
  interval_cases d <;> decide

theorem foldl_digitChar (l : List Nat) (hl : ∀ d ∈ l, d < 10) (a : Nat) :
    ((l.map digitChar).reverse).foldl (fun x c => x * 10 + charVal c) a
      = a * 10 ^ l.length + Nat.ofDigits 10 l := by
  induction l generalizing a with
  | nil => simp
  | cons d L ih =>
    have hd : d < 10 := hl d (by simp)
    have hL : ∀ x ∈ L, x < 10 := fun x hx => hl x (by simp [hx])
    simp only [List.map_cons, List.reverse_cons, List.foldl_append, List.foldl_cons,
      List.foldl_nil]
    rw [ih hL a, charVal_digitChar hd, Nat.ofDigits_cons, List.length_cons]
    ring

theorem digitsGo_eq (fuel : Nat) : ∀ n : Nat, n ≤ fuel → digitsGo fuel n = Nat.digits 10 n := by
  induction fuel with
  | zero =>
    intro n hn
    obtain rfl : n = 0 := Nat.le_zero.mp hn
    simp [digitsGo]
  | succ f ih =>
    intro n hn
    cases n with
    | zero => simp [digitsGo]
    | succ m =>
      have hdiv : (m + 1) / 10 < m + 1 := Nat.div_lt_self (Nat.succ_pos m) (by norm_num)
      rw [digitsGo, ih ((m + 1) / 10) (by omega),
        Nat.digits_def' (by norm_num : 1 < 10) (Nat.succ_pos m)]

theorem decDigits_eq (n : Nat) : decDigits n = Nat.digits 10 n :=
  digitsGo_eq n n (Nat.le_refl n)

theorem fromisoformat_isoformat (t : Nat) : fromisoformat (isoformat t) = some t := by
  by_cases h0 : t = 0
  · subst h0; decide
  · have hne : Nat.digits 10 t ≠ [] := Nat.digits_ne_nil_iff_ne_zero.mpr h0
    have hdig : ∀ d ∈ Nat.digits 10 t, d < 10 :=
      fun d hd => Nat.digits_lt_base (by norm_num) hd
    unfold isoformat fromisoformat
    rw [decDigits_eq]
    simp only [if_neg h0]
    have hnil : ((Nat.digits 10 t).map digitChar).reverse ≠ [] := by
      simp [hne]
    have hall : (((Nat.digits 10 t).map digitChar).reverse).all Char.isDigit = true := by
      rw [List.all_eq_true]
      intro c hc
      rw [List.mem_reverse, List.mem_map] at hc
      obtain ⟨d, hd, rfl⟩ := hc
      exact digitChar_isDigit (hdig d hd)
    rw [if_pos ⟨hnil, hall⟩, foldl_digitChar _ hdig 0, Nat.zero_mul, Nat.zero_add,
      Nat.ofDigits_digits]

theorem isoformat_ne_empty (t : Nat) : isoformat t ≠ "" := by
  by_cases h0 : t = 0
  · subst h0; decide
  · intro hcontra
    have hd : ((Nat.digits 10 t).map digitChar).reverse = [] := by
      have := congrArg String.data hcontra
      simpa [isoformat, decDigits_eq, if_neg h0] using this
    have hdz : Nat.digits 10 t ≠ [] := Nat.digits_ne_nil_iff_ne_zero.mpr h0
    simp at hd
    exact hdz hd

/-! ## Lemmas: cache serialization and tiers -/

theorem from_dict_to_dict {ε : Type} (e : CacheEntry ε) :
    CacheEntry.from_dict e.to_dict = some e := by
  unfold CacheEntry.from_dict CacheEntry.to_dict
  simp [isoformat_ne_empty e.cached_at, fromisoformat_isoformat, pyStr]

theorem lookup_insertA_self {β : Type} (k : String) (v : β) (l : List (String × β)) :
    (insertA k v l).lookup k = some v := by
  simp [insertA, List.lookup]

/-- `isValid` read back as the age inequality. -/
theorem isValid_iff {ε : Type} (now : Nat) (ttl : Int) (e : CacheEntry ε) :
    isValid now ttl e = true ↔ (now : Int) - (e.cached_at : Int) < ttl := by
  simp [isValid]

/-- `isValid` negated: the entry has reached its ttl. -/
theorem isValid_false_iff {ε : Type} (now : Nat) (ttl : Int) (e : CacheEntry ε) :
    isValid now ttl e = false ↔ ttl ≤ (now : Int) - (e.cached_at : Int) := by
  simp [isValid, not_lt]

/-! ## Cache claim theorems -/

/-- The remote phase only returns valid entries. -/
theorem loadPhase3_fresh {ε : Type} {f : Faults} {now : Nat} {σ : CacheState ε}
    {key : String} {e' : CacheEntry ε} {σ' : CacheState ε}
    (h : loadPhase3 f now σ key = .ok (some e', σ')) :
    isValid now σ.ttl e' = true := by
  unfold loadPhase3 at h
  split at h
  · split at h
    · rename_i e he hv
      simp only [Except.ok.injEq, Prod.mk.injEq, Option.some.injEq] at h
      obtain ⟨rfl, -⟩ := h
      exact hv
    · simp at h
  · simp at h

/-- The disk phase (falling through to remote) only returns valid entries. -/
theorem loadPhase2_fresh {ε : Type} {f : Faults} {now : Nat} {σ : CacheState ε}
    {key : String} {e' : CacheEntry ε} {σ' : CacheState ε}
    (h : loadPhase2 f now σ key = .ok (some e', σ')) :
    isValid now σ.ttl e' = true := by
  unfold loadPhase2 at h
  split at h
  · split at h
    · rename_i e he hv
      simp only [Except.ok.injEq, Prod.mk.injEq, Option.some.injEq] at h
      obtain ⟨rfl, -⟩ := h
      exact hv
    · exact loadPhase3_fresh h
  · exact loadPhase3_fresh h

/-- Any entry `load` returns is strictly younger than the ttl. -/
theorem load_returns_fresh {ε : Type} {f : Faults} (now : Nat) (σ : CacheState ε) (c : String)
    (e' : CacheEntry ε) (σ' : CacheState ε)
    (h : CacheStore.load f now σ c = .ok (some e', σ')) :
    (now : Int) - (e'.cached_at : Int) < σ.ttl := by
  rw [← isValid_iff]
  unfold CacheStore.load at h
  simp only at h
  split at h
  · split at h
    · rename_i e he hv
      simp only [Except.ok.injEq, Prod.mk.injEq, Option.some.injEq] at h
      obtain ⟨rfl, -⟩ := h
      exact hv
    · exact loadPhase2_fresh h
  · exact loadPhase2_fresh h

theorem saveToDisk_memory {ε : Type} (f : Faults) (σ : CacheState ε) (key : String)
    (e : CacheEntry ε) : (saveToDisk f σ key e).memory = σ.memory := by
  unfold saveToDisk; split <;> rfl

theorem saveToFirestore_memory {ε : Type} (f : Faults) (σ : CacheState ε) (key : String)
    (e : CacheEntry ε) : (saveToFirestore f σ key e).memory = σ.memory := by
  unfold saveToFirestore; split <;> rfl

theorem loadPhase3_isOk {ε : Type} (f : Faults) (now : Nat) (σ : CacheState ε)
    (key : String) : (loadPhase3 f now σ key).isOk = true := by
  unfold loadPhase3
  split
  · split <;> rfl
  · rfl

theorem loadPhase2_isOk {ε : Type} (f : Faults) (now : Nat) (σ : CacheState ε)
    (key : String) : (loadPhase2 f now σ key).isOk = true := by
  unfold loadPhase2
  split
  · split
    · rfl
    · exact loadPhase3_isOk f now σ key
  · exact loadPhase3_isOk f now σ key

theorem load_isOk {ε : Type} (f : Faults) (now : Nat) (σ : CacheState ε)
    (city : String) : (CacheStore.load f now σ city).isOk = true := by
  unfold CacheStore.load
  simp only
  split
  · split
    · rfl
    · exact loadPhase2_isOk f now σ (cacheKey city)
  · exact loadPhase2_isOk f now σ (cacheKey city)

/-- C2: for an entry of age `now - T` held (alone) in any one of the three
tiers of a store with ttl `Δ = σ.ttl`, `load` returns it exactly when
`now - T < Δ`, misses when `Δ ≤ now - T`, and — whatever the store — never
returns an entry whose age has reached the ttl. -/
theorem cache_ttl_boundary {ε : Type} (σ : CacheState ε) (city : String) (e : CacheEntry ε)
    (tier : Tier) (now : Nat) (h : holdsOnlyIn σ (cacheKey city) e tier) :
    (((now : Int) - (e.cached_at : Int) < σ.ttl) →
      ∃ σ', CacheStore.load noFaults now σ city = .ok (some e, σ'))
    ∧ ((σ.ttl ≤ (now : Int) - (e.cached_at : Int)) →
      CacheStore.load noFaults now σ city = .ok (none, σ))
    ∧ (∀ (σ₀ : CacheState ε) (c : String) (e' : CacheEntry ε) (σ₁ : CacheState ε),
        CacheStore.load noFaults now σ₀ c = .ok (some e', σ₁) →
        (now : Int) - (e'.cached_at : Int) < σ₀.ttl) := by
  refine ⟨?_, ?_, fun σ₀ c e' σ₁ hl => load_returns_fresh now σ₀ c e' σ₁ hl⟩
  · intro hfresh
    have hv : isValid now σ.ttl e = true := (isValid_iff _ _ _).mpr hfresh
    cases tier with
    | memory =>
      obtain ⟨hm, hd, hr⟩ := h
      exact ⟨σ, by simp [CacheStore.load, hm, hv]⟩
    | disk =>
      obtain ⟨hm, hd, hr⟩ := h
      refine ⟨{ σ with memory := insertA (cacheKey city) e σ.memory }, ?_⟩
      simp [CacheStore.load, loadPhase2, loadFromDisk, noFaults, hm, hd,
        from_dict_to_dict, hv]
    | remote =>
      obtain ⟨hm, hd, hr⟩ := h
      refine ⟨saveToDisk noFaults { σ with memory := insertA (cacheKey city) e σ.memory }
        (cacheKey city) e, ?_⟩
      simp [CacheStore.load, loadPhase2, loadPhase3, loadFromDisk, loadFromFirestore,
        noFaults, hm, hd, hr, from_dict_to_dict, hv]
  · intro hstale
    have hv : isValid now σ.ttl e = false := (isValid_false_iff _ _ _).mpr hstale
    cases tier with
    | memory =>
      obtain ⟨hm, hd, hr⟩ := h
      simp [CacheStore.load, loadPhase2, loadPhase3, loadFromDisk, loadFromFirestore,
        noFaults, hm, hd, hr, hv]
    | disk =>
      obtain ⟨hm, hd, hr⟩ := h
      simp [CacheStore.load, loadPhase2, loadPhase3, loadFromDisk, loadFromFirestore,
        noFaults, hm, hd, hr, from_dict_to_dict, hv]
    | remote =>
      obtain ⟨hm, hd, hr⟩ := h
      simp [CacheStore.load, loadPhase2, loadPhase3, loadFromDisk, loadFromFirestore,
        noFaults, hm, hd, hr, from_dict_to_dict, hv, emptyCacheDict]

/-- Witness for C2 at the disk tier: the sample entry (saved at `T = 3`,
ttl `Δ = 5`) is returned at `now = 6` (age `3 < 5`) and gone at `now = 8`
(age `5 ≥ 5`). -/
theorem cache_ttl_boundary_witness :
    (∃ σ', CacheStore.load noFaults 6 σdW "Boston" = .ok (some e0W, σ'))
    ∧ CacheStore.load noFaults 8 σdW "Boston" = .ok (none, σdW) := by
  constructor
  · exact (cache_ttl_boundary σdW "Boston" e0W Tier.disk 6
      ⟨by decide, by decide, by decide⟩).1 (by decide)
  · exact (cache_ttl_boundary σdW "Boston" e0W Tier.disk 8
      ⟨by decide, by decide, by decide⟩).2.1 (by decide)

/-- C7 (amended): `load`, `save` and `cleanup` never raise under any fault
schedule; a `save` whose disk or remote write fails still returns the entry
written to memory; a corrupt disk record is treated as absent and the
search continues to the remote tier; `invalidate` swallows remote failures
— but (the amendment) an `invalidate` whose disk unlink fails propagates
that error, since the source does not guard the unlink. -/
theorem cache_ops_degrade_gracefully (ε : Type) :
    (∀ (f : Faults) (now : Nat) (σ : CacheState ε) (city : String),
      (CacheStore.load f now σ city).isOk = true)
    ∧ (∀ (f : Faults) (now : Nat) (σ : CacheState ε) (city : String) (events : List ε)
        (md : Option Metadata),
        ∃ σ', CacheStore.save f now σ city events md
            = .ok ({ city := city, events := events, cached_at := now,
                     metadata := md.getD [] }, σ')
          ∧ σ'.memory.lookup (cacheKey city)
            = some { city := city, events := events, cached_at := now,
                     metadata := md.getD [] })
    ∧ (∀ (f : Faults) (now : Nat) (σ : CacheState ε),
        (CacheStore.cleanup f now σ).isOk = true)
    ∧ (∀ (f : Faults) (σ : CacheState ε) (city : String), f.diskDeleteFail = false →
        (CacheStore.invalidate f σ city).isOk = true)
    ∧ (∀ (f : Faults) (now : Nat) (σ : CacheState ε) (city : String) (e : CacheEntry ε),
        f.remoteFail = false →
        σ.memory.lookup (cacheKey city) = none →
        σ.disk.lookup (cacheKey city) = some none →
        σ.remote.lookup (cacheKey city) = some (some e.to_dict) →
        isValid now σ.ttl e = true →
        ∃ σ', CacheStore.load f now σ city = .ok (some e, σ')) := by
  refine ⟨load_isOk, ?_, fun f now σ => rfl, ?_, ?_⟩
  · intro f now σ city events md
    refine ⟨_, rfl, ?_⟩
    rw [saveToFirestore_memory, saveToDisk_memory]
    exact lookup_insertA_self _ _ _
  · intro f σ city hdd
    unfold CacheStore.invalidate
    dsimp only
    split
    · rename_i e heq
      rw [diskUnlink, hdd] at heq
      split at heq <;> simp_all
    · rfl
  · intro f now σ city e hrf hm hd hr hv
    refine ⟨saveToDisk f { σ with memory := insertA (cacheKey city) e σ.memory }
      (cacheKey city) e, ?_⟩
    have hdisk : loadFromDisk f σ (cacheKey city) = none := by
      cases hdr : f.diskReadFail <;> simp [loadFromDisk, hd, hdr]
    simp [CacheStore.load, loadPhase2, loadPhase3, loadFromFirestore, hm, hdisk, hr,
      hrf, from_dict_to_dict, hv]

/-- Witness for C7: a no-fault `invalidate` succeeds, and with a corrupt
disk record plus a valid remote copy, `load` returns the remote entry. -/
theorem cache_ops_degrade_gracefully_witness :
    (CacheStore.invalidate noFaults σdW "Boston").isOk = true
    ∧ ∃ σ', CacheStore.load noFaults 6 σcW "Boston" = .ok (some e0W, σ') := by
  refine ⟨(cache_ops_degrade_gracefully Nat).2.2.2.1 noFaults σdW "Boston" rfl, ?_⟩
  exact (cache_ops_degrade_gracefully Nat).2.2.2.2 noFaults 6 σcW "Boston" e0W rfl
    (by decide) (by decide) (by decide) (by decide)

/-- Counterexample to C7 as stated: with the sample entry on disk and a
fault schedule in which only the disk delete raises, `invalidate` raises
past the store boundary. -/
theorem cache_invalidate_raises_cex :
    CacheStore.invalidate fDW σdW "Boston" = .error .os := rfl

theorem diskKeep_iff {ε : Type} (now : Nat) (ttl : Int) (dd : CacheDict ε) :
    diskKeep noFaults now ttl (some dd) = true
      ↔ ∃ e, CacheEntry.from_dict dd = some e
          ∧ (now : Int) - (e.cached_at : Int) < ttl := by
  cases hfd : CacheEntry.from_dict dd with
  | none => simp [diskKeep, parseDiskFile, noFaults, hfd]
  | some e => simp [diskKeep, parseDiskFile, noFaults, hfd, isValid_iff]

theorem remoteKeep_iff {ε : Type} (now : Nat) (ttl : Int) (rd : Option (CacheDict ε)) :
    remoteKeep now ttl rd = true
      ↔ ∃ e, CacheEntry.from_dict (rd.getD (emptyCacheDict ε)) = some e
          ∧ (now : Int) - (e.cached_at : Int) < ttl := by
  cases hfd : CacheEntry.from_dict (rd.getD (emptyCacheDict ε)) with
  | none => simp [remoteKeep, hfd]
  | some e => simp [remoteKeep, hfd, isValid_iff]

/-- C8: at a fixed `now`, one no-fault `cleanup` keeps in each tier exactly
the records that still decode to valid entries: every memory entry with
`now - cached_at ≥ ttl` is gone and every valid one kept; a disk or remote
record survives iff it decodes to a still-valid entry (so disk files that
fail to parse are gone); and a second immediate `cleanup` returns the same
state (idempotence). -/
theorem cleanup_removes_exactly_expired {ε : Type} (now : Nat) (σ : CacheState ε) :
    ∃ σ', CacheStore.cleanup noFaults now σ = .ok σ'
      ∧ σ'.memory = σ.memory.filter (fun p => isValid now σ.ttl p.2)
      ∧ σ'.disk = σ.disk.filter (fun p => diskKeep noFaults now σ.ttl p.2)
      ∧ σ'.remote = σ.remote.filter (fun p => remoteKeep now σ.ttl p.2)
      ∧ (∀ (k : String) (e : CacheEntry ε),
          (k, e) ∈ σ'.memory ↔ ((k, e) ∈ σ.memory ∧ (now : Int) - (e.cached_at : Int) < σ.ttl))
      ∧ (∀ (k : String) (dd : CacheDict ε),
          (k, some dd) ∈ σ'.disk ↔ ((k, some dd) ∈ σ.disk
            ∧ ∃ e, CacheEntry.from_dict dd = some e
                ∧ (now : Int) - (e.cached_at : Int) < σ.ttl))
      ∧ (∀ (k : String) (rd : Option (CacheDict ε)),
          (k, rd) ∈ σ'.remote ↔ ((k, rd) ∈ σ.remote
            ∧ ∃ e, CacheEntry.from_dict (rd.getD (emptyCacheDict ε)) = some e
                ∧ (now : Int) - (e.cached_at : Int) < σ.ttl))
      ∧ (∀ k : String, (k, (none : DiskFile ε)) ∉ σ'.disk)
      ∧ CacheStore.cleanup noFaults now σ' = .ok σ' := by
  refine ⟨cleanupState noFaults now σ, rfl, ?_, ?_, ?_, ?_, ?_, ?_, ?_, ?_⟩
  · rfl
  · simp [cleanupState, noFaults]
  · rfl
  · intro k e
    constructor
    · intro hk
      have := List.mem_filter.mp hk
      exact ⟨this.1, (isValid_iff _ _ _).mp this.2⟩
    · intro ⟨hk, hfresh⟩
      exact List.mem_filter.mpr ⟨hk, (isValid_iff _ _ _).mpr hfresh⟩
  · intro k dd
    constructor
    · intro hk
      have h := List.mem_filter.mp hk
      have h2 := h.2
      rw [Bool.or_eq_true] at h2
      rcases h2 with h2 | h2
      · exact ⟨h.1, (diskKeep_iff now σ.ttl dd).mp h2⟩
      · exact absurd h2 (by simp [noFaults])
    · intro ⟨hk, he⟩
      exact List.mem_filter.mpr ⟨hk, by
        rw [Bool.or_eq_true]
        exact Or.inl ((diskKeep_iff now σ.ttl dd).mpr he)⟩
  · intro k rd
    constructor
    · intro hk
      have h := List.mem_filter.mp hk
      exact ⟨h.1, (remoteKeep_iff now σ.ttl rd).mp h.2⟩
    · intro ⟨hk, he⟩
      exact List.mem_filter.mpr ⟨hk, (remoteKeep_iff now σ.ttl rd).mpr he⟩
  · intro k hk
    have := (List.mem_filter.mp hk).2
    simp [diskKeep, parseDiskFile, noFaults] at this
  · show Except.ok (cleanupState noFaults now (cleanupState noFaults now σ)) = _
    cases σ with
    | mk ttl mem disk rem =>
      simp only [cleanupState, noFaults, Bool.or_false, if_false, Except.ok.injEq]
      simp [List.filter_filter]

/-- Witness for C8 on the sample cleanup state: only the fresh `"b"`
records survive in every tier, and a second sweep changes nothing. -/
theorem cleanup_removes_exactly_expired_witness :
    ∃ σ', CacheStore.cleanup noFaults 10 σ8W = .ok σ'
      ∧ σ'.memory = [("b", eBW)]
      ∧ σ'.disk = [("b", some eBW.to_dict)]
      ∧ σ'.remote = [("b", some eBW.to_dict)]
      ∧ CacheStore.cleanup noFaults 10 σ' = .ok σ' := by
  obtain ⟨σ', h1, h2, h3, h4, -, -, -, -, h9⟩ := cleanup_removes_exactly_expired 10 σ8W
  refine ⟨σ', h1, ?_, ?_, ?_, h9⟩
  · rw [h2]; decide
  · rw [h3]; decide
  · rw [h4]; decide

/-- C10: serializing a cache entry and restoring it reproduces the entry
(same city, events, timestamp, metadata), and the serialized record always
carries `count = len(events)`. -/
theorem cache_entry_roundtrip {ε : Type} (e : CacheEntry ε) :
    CacheEntry.from_dict e.to_dict = some e
    ∧ e.to_dict.count = some e.events.length :=
  ⟨from_dict_to_dict e, rfl⟩

/-! ## Lemmas: chat helpers -/

theorem scanCity_none (locq : String → Option String) (h : ∀ s, locq s = none) :
    ∀ l : List PyMsg, scanCity locq l = none := by
  intro l
  induction l with
  | nil => rfl
  | cons m rest ih =>
    cases m with
    | nonDict => simpa [scanCity] using ih
    | dict md =>
      by_cases hr : md.role = some (.str "user")
      · rcases hc : md.content with _ | pv
        · simp [scanCity, hr, hc, ih]
        · cases pv with
          | str s => simp [scanCity, hr, hc, h s, ih]
          | other => simp [scanCity, hr, hc, ih]
      · simp [scanCity, hr, ih]

theorem fillGap_stored_none (v : Option String) : fillGap v none = v := by
  simp [fillGap, pyTruthy]

theorem gapLocation_cond_false (v : Option String) (h : prefGap v = true) :
    (pyTruthy v && !(v == some "none")) = false := by
  cases v with
  | none => rfl
  | some s =>
    have : s = "" ∨ s = "none" := by simpa [prefGap] using h
    rcases this with rfl | rfl
    · rfl
    · simp [pyTruthy]

theorem determineCity_gap_default (d : Deps) (req : ChatRequest) (p : UserPreferences)
    (hp : prefGap p.location = true)
    (hq : d.extract_location_from_query req.message = none) :
    determineCity d req p none = ("new york", false, p) := by
  simp [determineCity, gapLocation_cond_false p.location hp, hq]

theorem extractPreferences_location_gap (d : Deps) (req : ChatRequest)
    (stored : StoredPreferences) (hist : List Msg)
    (hext : ∀ m h, prefGap ((d.extract_user_preferences m h).location) = true)
    (hloc : ∀ s, d.extract_location_from_query s = none)
    (hst : stored.location = none) :
    prefGap ((extractPreferences d req stored hist).location) = true := by
  unfold extractPreferences
  rw [scanCity_none d.extract_location_from_query hloc]
  simp only [hst, fillGap_stored_none]
  exact hext _ _

theorem lookup_append_single {κ β : Type} [BEq κ] [LawfulBEq κ] (l : List (κ × β)) (k : κ) (v : β)
    (h : l.lookup k = none) : (l ++ [(k, v)]).lookup k = some v := by
  induction l with
  | nil => simp [List.lookup]
  | cons p rest ih =>
    rw [List.cons_append]
    cases hkp : k == p.1 with
    | true => simp [List.lookup, hkp] at h
    | false =>
      simp only [List.lookup, hkp] at h ⊢
      exact ih h

theorem resolveConv_cid_ne (d : Deps) (σ : ConvStore) (req : ChatRequest)
    (hfresh : d.fresh_conv_id ≠ "") : (resolveConv d σ req).1 ≠ "" := by
  unfold resolveConv
  split
  · exact hfresh
  · split
    · exact hfresh
    · rename_i hne
      exact hne

theorem resolveConv_trace (d : Deps) (σ : ConvStore) (req : ChatRequest) :
    (resolveConv d σ req).2.2 = []
    ∨ (resolveConv d σ req).2.2 = [Effect.createConv req.user_id] := by
  unfold resolveConv
  split
  · right; rfl
  · split
    · right; rfl
    · left; rfl

theorem lookupStored_convCreate (σ : ConvStore) (uid cid : String)
    (hstored : ∀ c, (lookupStored (σ.lookup (uid, c))).1.location = none) :
    (lookupStored ((convCreate σ uid cid).lookup (uid, cid))).1.location = none := by
  unfold convCreate
  by_cases hk : (σ.lookup (uid, cid)).isSome = true
  · rw [if_pos hk]
    exact hstored cid
  · rw [if_neg hk]
    have hnone : σ.lookup (uid, cid) = none := by
      cases hv : σ.lookup (uid, cid)
      · rfl
      · rw [hv] at hk; simp at hk
    rw [lookup_append_single σ _ _ hnone]
    rfl

theorem resolveConv_stored_location (d : Deps) (σ : ConvStore) (req : ChatRequest)
    (hstored : ∀ cid, (lookupStored (σ.lookup (req.user_id, cid))).1.location = none) :
    (lookupStored
      ((resolveConv d σ req).2.1.lookup (req.user_id, (resolveConv d σ req).1))).1.location
      = none := by
  unfold resolveConv
  split
  · exact lookupStored_convCreate σ req.user_id d.fresh_conv_id hstored
  · split
    · exact lookupStored_convCreate σ req.user_id d.fresh_conv_id hstored
    · exact hstored _

/-- The missing-location branch of the main body: on an initial turn where
the extractor, the location detector and the stored conversation all fail
to produce a location, the body returns the fixed city prompt, persists
exactly the user turn, and stops before any fetch or ranking. -/
theorem handleChatMain_prompt (d : Deps) (σ : ConvStore) (req : ChatRequest)
    (usage : Option Usage) (tr0 : List Effect)
    (hinit : req.is_initial_response = true)
    (hfresh : d.fresh_conv_id ≠ "")
    (hext : ∀ m h, prefGap ((d.extract_user_preferences m h).location) = true)
    (hloc : ∀ s, d.extract_location_from_query s = none)
    (hstored : ∀ cid, (lookupStored (σ.lookup (req.user_id, cid))).1.location = none) :
    ∃ (p : UserPreferences) (cid : String) (σ2 : ConvStore) (tc : List Effect)
      (hl : List Msg) (m : StoredItem),
      handleChatMain d σ req usage tr0
        = ({ message := cityPrompt, recommendations := [], cache_used := false,
             cache_age_hours := none, extracted_preferences := some p,
             extraction_summary := none, usage_stats := usage, trial_exceeded := false,
             conversation_id := cid }, σ2,
           tr0 ++ tc ++ [Effect.extractCall req.message hl,
             Effect.saveMsg req.user_id cid m])
      ∧ cid ≠ ""
      ∧ (tc = [] ∨ tc = [Effect.createConv req.user_id])
      ∧ m.roleStr = some "user" := by
  set rc := resolveConv d σ req with hrc
  set sh := lookupStored (rc.2.1.lookup (req.user_id, rc.1)) with hsh
  set pe := extractPreferences d req sh.1 sh.2 with hpe
  have hsl : sh.1.location = none := by
    rw [hsh, hrc]
    exact resolveConv_stored_location d σ req hstored
  have hploc : prefGap pe.location = true := by
    rw [hpe]
    exact extractPreferences_location_gap d req sh.1 sh.2 hext hloc hsl
  have hdet : determineCity d req pe sh.1.location = ("new york", false, pe) := by
    rw [hsl]
    exact determineCity_gap_default d req pe hploc (hloc req.message)
  have hcid : rc.1 ≠ "" := by
    rw [hrc]
    exact resolveConv_cid_ne d σ req hfresh
  have htc : rc.2.2 = [] ∨ rc.2.2 = [Effect.createConv req.user_id] := by
    rw [hrc]
    exact resolveConv_trace d σ req
  refine ⟨pe, rc.1,
    convSave rc.2.1 req.user_id rc.1
      (.dict { role := some (.str "user"), content := some (.str req.message),
               timestamp := d.now_iso, extracted_preferences := some (prefsToDict pe) }),
    rc.2.2, combinedHistory req.conversation_history sh.2,
    .dict { role := some (.str "user"), content := some (.str req.message),
            timestamp := d.now_iso, extracted_preferences := some (prefsToDict pe) },
    ?_, hcid, htc, rfl⟩
  unfold handleChatMain
  rw [← hrc]
  dsimp only
  rw [← hsh, ← hpe, hdet, hinit]
  simp [List.append_assoc]

/-- C5: on an initial turn where no location resolves from extraction,
query-derived detection, or stored history (and the trial gate does not
fire), `handle_chat` returns the fixed city clarification with no
recommendations and a non-empty conversation id, performs no event fetch or
ranking, and persists only the user's turn. -/
theorem initial_turn_missing_location (d : Deps) (σ : ConvStore) (req : ChatRequest)
    (hinit : req.is_initial_response = true)
    (htrial : pyStartsWith req.user_id "user_" = false
      ∨ d.check_trial_limit req.user_id = false)
    (hfresh : d.fresh_conv_id ≠ "")
    (hext : ∀ m h, prefGap ((d.extract_user_preferences m h).location) = true)
    (hloc : ∀ s, d.extract_location_from_query s = none)
    (hstored : ∀ cid, (lookupStored (σ.lookup (req.user_id, cid))).1.location = none) :
    (handle_chat d σ req).1.message = cityPrompt
    ∧ (handle_chat d σ req).1.recommendations = []
    ∧ (handle_chat d σ req).1.conversation_id ≠ ""
    ∧ (handle_chat d σ req).1.trial_exceeded = false
    ∧ (∀ e ∈ (handle_chat d σ req).2.2, e.isFetch = false ∧ e.isRank = false)
    ∧ (∃ cid m, ((handle_chat d σ req).2.2).filter Effect.isPersist
        = [Effect.saveMsg req.user_id cid m] ∧ m.roleStr = some "user") := by
  have hmain : ∃ (us : Option Usage) (tr0 : List Effect),
      handle_chat d σ req = handleChatMain d σ req us tr0
      ∧ (tr0 = [] ∨ tr0 = [Effect.checkTrial req.user_id, Effect.incUsage req.user_id]) := by
    cases hu : pyStartsWith req.user_id "user_" with
    | false => exact ⟨none, [], by simp [handle_chat, hu], Or.inl rfl⟩
    | true =>
      have hck : d.check_trial_limit req.user_id = false := by
        rcases htrial with h | h
        · rw [hu] at h; cases h
        · exact h
      exact ⟨some (d.increment_usage req.user_id),
        [Effect.checkTrial req.user_id, Effect.incUsage req.user_id],
        by simp [handle_chat, hu, hck], Or.inr rfl⟩
  obtain ⟨us, tr0, hhc, htr0⟩ := hmain
  obtain ⟨p, cid, σ2, tc, hl, m, heq, hcid, htc, hrole⟩ :=
    handleChatMain_prompt d σ req us tr0 hinit hfresh hext hloc hstored
  rw [hhc, heq]
  refine ⟨rfl, rfl, hcid, rfl, ?_, cid, m, ?_, hrole⟩
  · intro e he
    rcases htr0 with rfl | rfl <;> rcases htc with rfl | rfl <;>
      simp only [List.nil_append, List.append_nil, List.cons_append,
        List.append_assoc] at he <;>
      fin_cases he <;> exact ⟨rfl, rfl⟩
  · rcases htr0 with rfl | rfl <;> rcases htc with rfl | rfl <;>
      simp [Effect.isPersist]

/-- Witness for C5: the spec's own scenario — `"find me something fun"`,
initial turn, all-"none" extractor — yields the city clarification, no
recommendations, a non-empty conversation id. -/
theorem initial_turn_missing_location_witness :
    (handle_chat dNW [] reqC5W).1.message = cityPrompt
    ∧ (handle_chat dNW [] reqC5W).1.recommendations = []
    ∧ (handle_chat dNW [] reqC5W).1.conversation_id ≠ ""
    ∧ (∀ e ∈ (handle_chat dNW [] reqC5W).2.2, e.isFetch = false ∧ e.isRank = false) := by
  have h := initial_turn_missing_location dNW [] reqC5W rfl (Or.inr rfl) (by decide)
    (fun _ _ => rfl) (fun _ => rfl) (fun _ => rfl)
  exact ⟨h.1, h.2.1, h.2.2.1, h.2.2.2.2.1⟩

/-- C6: an anonymous user at the trial limit is short-circuited: the
outcome carries `trial_exceeded`, the sentinel conversation id `"temp"`,
the message embedding the configured limit; conversation storage is left
untouched and the only effects are the trial check and the usage lookup. -/
theorem trial_gate (d : Deps) (σ : ConvStore) (req : ChatRequest)
    (h1 : pyStartsWith req.user_id "user_" = true)
    (h2 : d.check_trial_limit req.user_id = true) :
    (handle_chat d σ req).1.trial_exceeded = true
    ∧ (handle_chat d σ req).1.conversation_id = "temp"
    ∧ (handle_chat d σ req).1.message
        = "🔒 You've reached your free trial limit of " ++ toString d.trial_limit
          ++ " interactions! Please register to continue using our service and keep your conversation history."
    ∧ (handle_chat d σ req).1.recommendations = []
    ∧ (handle_chat d σ req).1.extracted_preferences = none
    ∧ (handle_chat d σ req).1.usage_stats = some (d.get_usage req.user_id)
    ∧ (handle_chat d σ req).2.1 = σ
    ∧ (handle_chat d σ req).2.2
        = [Effect.checkTrial req.user_id, Effect.getUsage req.user_id] := by
  simp [handle_chat, h1, h2, trialMessage]

/-- Witness for C6: the trial-limited fake collaborators at `user_999`. -/
theorem trial_gate_witness :
    (handle_chat dTW [] reqC6W).1.trial_exceeded = true
    ∧ (handle_chat dTW [] reqC6W).1.conversation_id = "temp"
    ∧ (handle_chat dTW [] reqC6W).1.message
        = "🔒 You've reached your free trial limit of 3 interactions! Please register to continue using our service and keep your conversation history."
    ∧ (handle_chat dTW [] reqC6W).2.1 = []
    ∧ (handle_chat dTW [] reqC6W).2.2
        = [Effect.checkTrial "user_999", Effect.getUsage "user_999"] := by
  have h := trial_gate dTW [] reqC6W (by decide) rfl
  exact ⟨h.1, h.2.1, h.2.2.1, h.2.2.2.2.2.2.1, h.2.2.2.2.2.2.2⟩

theorem extractPreferences_extractor_loc (d : Deps) (req : ChatRequest)
    (stored : StoredPreferences) (hist : List Msg) (c : String)
    (hx : (d.extract_user_preferences req.message
      (combinedHistory req.conversation_history hist)).location = some c)
    (hloc : ∀ s, d.extract_location_from_query s = none)
    (hne : c ≠ "") (hnn : c ≠ "none") :
    (extractPreferences d req stored hist).location = some c := by
  have hgap : prefGap (some c) = false := by simp [prefGap, hne, hnn]
  unfold extractPreferences
  rw [scanCity_none d.extract_location_from_query hloc]
  dsimp only
  rw [hx]
  simp [fillGap, hgap]

theorem determineCity_concrete (d : Deps) (req : ChatRequest) (p : UserPreferences)
    (storedLoc : Option String) (c : String) (hp : p.location = some c)
    (hne : c ≠ "") (hnn : c ≠ "none") :
    determineCity d req p storedLoc = (pyLower c, true, p) := by
  have h1 : pyTruthy p.location = true := by simp [pyTruthy, hp, hne]
  have h2 : (p.location == some "none") = false := by simp [hp, hnn]
  have hcond : (pyTruthy p.location && !(p.location == some "none")) = true := by
    rw [h1, h2]; rfl
  unfold determineCity
  rw [hcond]
  simp [hp]

theorem extractPreferences_query_override (d : Deps) (req : ChatRequest)
    (stored : StoredPreferences) (hist : List Msg) (c : String)
    (hc : d.extract_location_from_query req.message = some c) (hne : c ≠ "") :
    (extractPreferences d req stored hist).location = some c := by
  have hscan : scanCity d.extract_location_from_query (historyForCity req hist).reverse
      = some c := by
    rw [historyForCity]
    simp only [List.reverse_append, List.reverse_singleton, List.singleton_append,
      List.cons_append]
    simp [scanCity, hc, hne]
  unfold extractPreferences
  rw [hscan]

/-- Reduce `handle_chat` past a non-firing trial gate to the main body. -/
theorem handle_chat_to_main (d : Deps) (σ : ConvStore) (req : ChatRequest)
    (htrial : pyStartsWith req.user_id "user_" = false
      ∨ d.check_trial_limit req.user_id = false) :
    ∃ (us : Option Usage) (tr0 : List Effect),
      handle_chat d σ req = handleChatMain d σ req us tr0
      ∧ tr0.filter Effect.isFetch = []
      ∧ (tr0 = [] ∨ tr0 = [Effect.checkTrial req.user_id, Effect.incUsage req.user_id]) := by
  cases hu : pyStartsWith req.user_id "user_" with
  | false => exact ⟨none, [], by simp [handle_chat, hu], rfl, Or.inl rfl⟩
  | true =>
    have hck : d.check_trial_limit req.user_id = false := by
      rcases htrial with h | h
      · rw [hu] at h; cases h
      · exact h
    exact ⟨some (d.increment_usage req.user_id),
      [Effect.checkTrial req.user_id, Effect.incUsage req.user_id],
      by simp [handle_chat, hu, hck], rfl, Or.inr rfl⟩

/-- The search branch of the main body: when the resolved city/flag pair is
`(city, provided)` (with the merged preferences passed through unchanged)
and the initial-turn guard does not fire, the body performs exactly one
fetch for `city`, composes the search reply around `city` and `provided`,
and persists the user turn, the assistant turn, and the metadata update. -/
theorem handleChatMain_search (d : Deps) (σ : ConvStore) (req : ChatRequest)
    (usage : Option Usage) (tr0 : List Effect) (city : String) (provided : Bool)
    (hfresh : d.fresh_conv_id ≠ "")
    (hdet : determineCity d req
        (extractPreferences d req
          (lookupStored ((resolveConv d σ req).2.1.lookup
            (req.user_id, (resolveConv d σ req).1))).1
          (lookupStored ((resolveConv d σ req).2.1.lookup
            (req.user_id, (resolveConv d σ req).1))).2)
        (lookupStored ((resolveConv d σ req).2.1.lookup
          (req.user_id, (resolveConv d σ req).1))).1.location
      = (city, provided,
         extractPreferences d req
          (lookupStored ((resolveConv d σ req).2.1.lookup
            (req.user_id, (resolveConv d σ req).1))).1
          (lookupStored ((resolveConv d σ req).2.1.lookup
            (req.user_id, (resolveConv d σ req).1))).2))
    (hbranch : (req.is_initial_response && !provided) = false) :
    ((handleChatMain d σ req usage tr0).2.2).filter Effect.isFetch
        = tr0.filter Effect.isFetch ++ [Effect.fetchEvents city]
    ∧ (∃ evs, (handleChatMain d σ req usage tr0).1.message
        = composeResponse city evs provided)
    ∧ (handleChatMain d σ req usage tr0).1.trial_exceeded = false
    ∧ (∃ cid mU, cid ≠ ""
        ∧ Effect.saveMsg req.user_id cid mU ∈ (handleChatMain d σ req usage tr0).2.2
        ∧ mU.roleStr = some "user")
    ∧ (∃ cid mA, Effect.saveMsg req.user_id cid mA ∈ (handleChatMain d σ req usage tr0).2.2
        ∧ mA.roleStr = some "assistant")
    ∧ (∃ cid, Effect.updateMeta req.user_id cid ∈ (handleChatMain d σ req usage tr0).2.2) := by
  set rc := resolveConv d σ req with hrc
  set sh := lookupStored (rc.2.1.lookup (req.user_id, rc.1)) with hsh
  set pe := extractPreferences d req sh.1 sh.2 with hpe
  have hcid : rc.1 ≠ "" := by
    rw [hrc]
    exact resolveConv_cid_ne d σ req hfresh
  have htc : rc.2.2 = [] ∨ rc.2.2 = [Effect.createConv req.user_id] := by
    rw [hrc]
    exact resolveConv_trace d σ req
  have heq : handleChatMain d σ req usage tr0
      = ({ message := composeResponse city
             (d.rank req.message (fetchEventsStep d city).1 (prefsToDict pe)) provided
           recommendations := formatRecommendations city
             (d.rank req.message (fetchEventsStep d city).1 (prefsToDict pe))
             (fetchEventsStep d city).2.1
           cache_used := (fetchEventsStep d city).2.1
           cache_age_hours := (fetchEventsStep d city).2.2
           extracted_preferences := some pe
           extraction_summary := buildExtractionSummary pe
           usage_stats := usage
           trial_exceeded := false
           conversation_id := rc.1 },
         convSave
           (convSave rc.2.1 req.user_id rc.1
             (.dict { role := some (.str "user"), content := some (.str req.message),
                      timestamp := d.now_iso,
                      extracted_preferences := some (prefsToDict pe) }))
           req.user_id rc.1
           (.dict { role := some (.str "assistant"),
                    content := some (.str (composeResponse city
                      (d.rank req.message (fetchEventsStep d city).1 (prefsToDict pe))
                      provided)),
                    timestamp := d.now_iso,
                    extracted_preferences := some (prefsToDict pe),
                    recommendations := some (formatRecommendations city
                      (d.rank req.message (fetchEventsStep d city).1 (prefsToDict pe))
                      (fetchEventsStep d city).2.1),
                    cache_used := some (fetchEventsStep d city).2.1,
                    cache_age_hours := some (fetchEventsStep d city).2.2 }),
         (((tr0 ++ rc.2.2)
             ++ [Effect.extractCall req.message
                  (combinedHistory req.conversation_history sh.2)])
             ++ [Effect.saveMsg req.user_id rc.1
                  (.dict { role := some (.str "user"),
                           content := some (.str req.message),
                           timestamp := d.now_iso,
                           extracted_preferences := some (prefsToDict pe) })])
           ++ [Effect.fetchEvents city,
               Effect.rankCall req.message (fetchEventsStep d city).1.length,
               Effect.saveMsg req.user_id rc.1
                 (.dict { role := some (.str "assistant"),
                          content := some (.str (composeResponse city
                            (d.rank req.message (fetchEventsStep d city).1
                              (prefsToDict pe)) provided)),
                          timestamp := d.now_iso,
                          extracted_preferences := some (prefsToDict pe),
                          recommendations := some (formatRecommendations city
                            (d.rank req.message (fetchEventsStep d city).1
                              (prefsToDict pe)) (fetchEventsStep d city).2.1),
                          cache_used := some (fetchEventsStep d city).2.1,
                          cache_age_hours := some (fetchEventsStep d city).2.2 }),
               Effect.updateMeta req.user_id rc.1]) := by
    unfold handleChatMain
    rw [← hrc]
    dsimp only
    rw [← hsh, ← hpe, hdet]
    simp only [hbranch, Bool.false_eq_true, if_false]
  set mU : StoredItem :=
    .dict { role := some (.str "user")
            content := some (.str req.message)
            timestamp := d.now_iso
            extracted_preferences := some (prefsToDict pe) } with hmU
  set mA : StoredItem :=
    .dict { role := some (.str "assistant")
            content := some (.str (composeResponse city
              (d.rank req.message (fetchEventsStep d city).1 (prefsToDict pe)) provided))
            timestamp := d.now_iso
            extracted_preferences := some (prefsToDict pe)
            recommendations := some (formatRecommendations city
              (d.rank req.message (fetchEventsStep d city).1 (prefsToDict pe))
              (fetchEventsStep d city).2.1)
            cache_used := some (fetchEventsStep d city).2.1
            cache_age_hours := some (fetchEventsStep d city).2.2 } with hmA
  rw [heq]
  refine ⟨?_, ⟨_, rfl⟩, rfl, ⟨rc.1, mU, hcid, ?_, by rw [hmU]; rfl⟩,
    ⟨rc.1, mA, ?_, by rw [hmA]; rfl⟩, ⟨rc.1, ?_⟩⟩
  · rcases htc with h | h <;>
      simp [h, List.filter_append, Effect.isFetch]
  · simp [hmU]
  · simp [hmA]
  · simp

/-- Counterexample to C3 as stated: on a non-initial turn with no
resolvable location, `handle_chat` does not ask again for a city — it
fetches events for the `"new york"` default and answers with the
default-city disclosure. -/
theorem followup_missing_location_cex :
    ((handle_chat dNW [] reqC3W).2.2).filter Effect.isFetch
        = [Effect.fetchEvents "new york"]
    ∧ (handle_chat dNW [] reqC3W).1.message
        = "😔 I couldn't find any events in New York matching your query. (I couldn't determine your location, so I'm defaulting to New York) Try asking about 'fashion events', 'music concerts', 'halloween parties', or 'free events'." :=
  ⟨rfl, rfl⟩

/-- C3 (amended): on a non-initial turn where no location resolves from
extraction, query-derived detection, or stored history (and the trial gate
does not fire), `handle_chat` persists the user's turn, defaults the city
to `"new york"` with the not-location-confirmed flag, performs the search,
and replies with the default-city disclosure instead of asking again. -/
theorem followup_default_city (d : Deps) (σ : ConvStore) (req : ChatRequest)
    (hinit : req.is_initial_response = false)
    (htrial : pyStartsWith req.user_id "user_" = false
      ∨ d.check_trial_limit req.user_id = false)
    (hfresh : d.fresh_conv_id ≠ "")
    (hext : ∀ m h, prefGap ((d.extract_user_preferences m h).location) = true)
    (hloc : ∀ s, d.extract_location_from_query s = none)
    (hstored : ∀ cid, (lookupStored (σ.lookup (req.user_id, cid))).1.location = none) :
    ((handle_chat d σ req).2.2).filter Effect.isFetch = [Effect.fetchEvents "new york"]
    ∧ (∃ evs, (handle_chat d σ req).1.message = composeResponse "new york" evs false)
    ∧ (handle_chat d σ req).1.trial_exceeded = false
    ∧ (∃ cid m, cid ≠ "" ∧ Effect.saveMsg req.user_id cid m ∈ (handle_chat d σ req).2.2
        ∧ m.roleStr = some "user") := by
  obtain ⟨us, tr0, hhc, hf0, -⟩ := handle_chat_to_main d σ req htrial
  have hsl : (lookupStored ((resolveConv d σ req).2.1.lookup
      (req.user_id, (resolveConv d σ req).1))).1.location = none :=
    resolveConv_stored_location d σ req hstored
  have hploc := extractPreferences_location_gap d req
    (lookupStored ((resolveConv d σ req).2.1.lookup
      (req.user_id, (resolveConv d σ req).1))).1
    (lookupStored ((resolveConv d σ req).2.1.lookup
      (req.user_id, (resolveConv d σ req).1))).2
    hext hloc hsl
  have hdet := determineCity_gap_default d req
    (extractPreferences d req
      (lookupStored ((resolveConv d σ req).2.1.lookup
        (req.user_id, (resolveConv d σ req).1))).1
      (lookupStored ((resolveConv d σ req).2.1.lookup
        (req.user_id, (resolveConv d σ req).1))).2)
    hploc (hloc req.message)
  rw [← hsl] at hdet
  have hbranch : (req.is_initial_response && !false) = false := by rw [hinit]; rfl
  obtain ⟨h1, h2, h3, h4, -, -⟩ :=
    handleChatMain_search d σ req us tr0 "new york" false hfresh hdet hbranch
  rw [hhc]
  exact ⟨by rw [h1, hf0]; rfl, h2, h3, h4⟩

/-- Witness for the amended C3 at the all-"none" collaborators. -/
theorem followup_default_city_witness :
    ((handle_chat dNW [] reqC3W).2.2).filter Effect.isFetch
        = [Effect.fetchEvents "new york"]
    ∧ (∃ evs, (handle_chat dNW [] reqC3W).1.message
        = composeResponse "new york" evs false)
    ∧ (∃ cid m, cid ≠ ""
        ∧ Effect.saveMsg "u1" cid m ∈ (handle_chat dNW [] reqC3W).2.2
        ∧ m.roleStr = some "user") := by
  have h := followup_default_city dNW [] reqC3W rfl (Or.inl rfl) (by decide)
    (fun _ _ => rfl) (fun _ => rfl) (fun _ => rfl)
  exact ⟨h.1, h.2.1, h.2.2.2⟩

/-- Counterexample to C4 as stated: on an initial turn whose extractor
resolves a location but no event type, `handle_chat` does not stop with an
event-category clarification — it fetches events for the city and returns
the search results. -/
theorem event_type_clarification_cex :
    ((handle_chat dC4W [] reqC4W).2.2).filter Effect.isFetch
        = [Effect.fetchEvents "san francisco"]
    ∧ (handle_chat dC4W [] reqC4W).1.recommendations.length = 1 :=
  ⟨rfl, rfl⟩

/-- C4 (amended): on a turn (initial or not) where the extractor resolves
a concrete location (and no query-derived phrase overrides it),
`handle_chat` proceeds to fetch and rank events for that city regardless
of whether any event type resolved, persists an assistant turn carrying
the search results, and updates the conversation metadata; no
event-category clarification state exists. -/
theorem initial_turn_no_event_type_gate (d : Deps) (σ : ConvStore) (req : ChatRequest)
    (c : String)
    (htrial : pyStartsWith req.user_id "user_" = false
      ∨ d.check_trial_limit req.user_id = false)
    (hfresh : d.fresh_conv_id ≠ "")
    (hx : ∀ m h, (d.extract_user_preferences m h).location = some c)
    (hloc : ∀ s, d.extract_location_from_query s = none)
    (hne : c ≠ "") (hnn : c ≠ "none") :
    ((handle_chat d σ req).2.2).filter Effect.isFetch
        = [Effect.fetchEvents (pyLower c)]
    ∧ (∃ evs, (handle_chat d σ req).1.message = composeResponse (pyLower c) evs true)
    ∧ (∃ cid m, Effect.saveMsg req.user_id cid m ∈ (handle_chat d σ req).2.2
        ∧ m.roleStr = some "assistant")
    ∧ (∃ cid, Effect.updateMeta req.user_id cid ∈ (handle_chat d σ req).2.2) := by
  obtain ⟨us, tr0, hhc, hf0, -⟩ := handle_chat_to_main d σ req htrial
  have hlocp := extractPreferences_extractor_loc d req
    (lookupStored ((resolveConv d σ req).2.1.lookup
      (req.user_id, (resolveConv d σ req).1))).1
    (lookupStored ((resolveConv d σ req).2.1.lookup
      (req.user_id, (resolveConv d σ req).1))).2
    c (hx _ _) hloc hne hnn
  have hdet := determineCity_concrete d req
    (extractPreferences d req
      (lookupStored ((resolveConv d σ req).2.1.lookup
        (req.user_id, (resolveConv d σ req).1))).1
      (lookupStored ((resolveConv d σ req).2.1.lookup
        (req.user_id, (resolveConv d σ req).1))).2)
    (lookupStored ((resolveConv d σ req).2.1.lookup
      (req.user_id, (resolveConv d σ req).1))).1.location
    c hlocp hne hnn
  have hbranch : (req.is_initial_response && !true) = false := by simp
  obtain ⟨h1, h2, -, -, h5, h6⟩ :=
    handleChatMain_search d σ req us tr0 (pyLower c) true hfresh hdet hbranch
  rw [hhc]
  exact ⟨by rw [h1, hf0]; rfl, h2, h5, h6⟩

/-- Witness for the amended C4: the San-Francisco collaborators on an
initial turn with `event_type = "none"` still search and persist the
assistant turn. -/
theorem initial_turn_no_event_type_gate_witness :
    ((handle_chat dC4W [] reqC4W).2.2).filter Effect.isFetch
        = [Effect.fetchEvents "san francisco"]
    ∧ (∃ cid m, Effect.saveMsg "u1" cid m ∈ (handle_chat dC4W [] reqC4W).2.2
        ∧ m.roleStr = some "assistant") := by
  have h := initial_turn_no_event_type_gate dC4W [] reqC4W "San Francisco"
    (Or.inl rfl) (by decide) (fun _ _ => rfl) (fun _ => rfl) (by decide) (by decide)
  exact ⟨h.1, h.2.2.1⟩

/-- C1: the merged preference set is fill-gaps-only.  For `event_type`,
`date` and `time` the merged value is exactly `fillGap extractor stored`
(a concrete extractor value wins; otherwise a concrete stored value fills
the gap); for `location`, a query-derived city found in the (most recent
first) scan overrides everything, a phrase in the current raw message in
particular; with no query-derived hit, `location` too is `fillGap
extractor stored`.  The last two conjuncts read `fillGap` back as the
claim's precedence. -/
theorem preference_merge (d : Deps) (req : ChatRequest) (stored : StoredPreferences)
    (hist : List Msg) :
    ((extractPreferences d req stored hist).event_type
      = fillGap (d.extract_user_preferences req.message
          (combinedHistory req.conversation_history hist)).event_type stored.event_type)
    ∧ ((extractPreferences d req stored hist).date
      = fillGap (d.extract_user_preferences req.message
          (combinedHistory req.conversation_history hist)).date stored.date)
    ∧ ((extractPreferences d req stored hist).time
      = fillGap (d.extract_user_preferences req.message
          (combinedHistory req.conversation_history hist)).time stored.time)
    ∧ (∀ c, scanCity d.extract_location_from_query (historyForCity req hist).reverse = some c →
        (extractPreferences d req stored hist).location = some c)
    ∧ (scanCity d.extract_location_from_query (historyForCity req hist).reverse = none →
        (extractPreferences d req stored hist).location
          = fillGap (d.extract_user_preferences req.message
              (combinedHistory req.conversation_history hist)).location stored.location)
    ∧ (∀ c, d.extract_location_from_query req.message = some c → c ≠ "" →
        (extractPreferences d req stored hist).location = some c)
    ∧ (∀ (v : String) (s : Option String), v ≠ "" → v ≠ "none" →
        fillGap (some v) s = some v)
    ∧ (∀ (v : Option String) (s : String), prefGap v = true → s ≠ "" →
        fillGap v (some s) = some s) := by
  have h7 : ∀ (v : String) (s : Option String), v ≠ "" → v ≠ "none" →
      fillGap (some v) s = some v := by
    intro v s hne hnn
    simp [fillGap, prefGap, hne, hnn]
  have h8 : ∀ (v : Option String) (s : String), prefGap v = true → s ≠ "" →
      fillGap v (some s) = some s := by
    intro v s hg hne
    simp [fillGap, pyTruthy, hg, hne]
  have hq : ∀ c, d.extract_location_from_query req.message = some c → c ≠ "" →
      (extractPreferences d req stored hist).location = some c :=
    fun c hc hne => extractPreferences_query_override d req stored hist c hc hne
  cases hscan : scanCity d.extract_location_from_query (historyForCity req hist).reverse with
  | some c =>
    refine ⟨?_, ?_, ?_, ?_, ?_, hq, h7, h8⟩
    · unfold extractPreferences; rw [hscan]
    · unfold extractPreferences; rw [hscan]
    · unfold extractPreferences; rw [hscan]
    · intro c' h
      obtain rfl : c = c' := Option.some.inj h
      unfold extractPreferences; rw [hscan]
    · intro h
      exact Option.noConfusion h
  | none =>
    refine ⟨?_, ?_, ?_, ?_, ?_, hq, h7, h8⟩
    · unfold extractPreferences; rw [hscan]
    · unfold extractPreferences; rw [hscan]
    · unfold extractPreferences; rw [hscan]
    · intro c' h
      exact Option.noConfusion h
    · intro _
      unfold extractPreferences; rw [hscan]

/-- Witness for C1: with stored `location = "Boston"` and the extractor
reporting `event_type = "concert"`, `location = "none"`, the merge yields
Boston and concert; with the current message naming Chicago, the merged
location is Chicago despite the stored Boston. -/
theorem preference_merge_witness :
    (extractPreferences dAW reqC1aW storedBW []).location = some "Boston"
    ∧ (extractPreferences dAW reqC1aW storedBW []).event_type = some "concert"
    ∧ (extractPreferences dAW reqC1bW storedBW []).location = some "Chicago" := by
  refine ⟨?_, ?_, ?_⟩
  · have h := (preference_merge dAW reqC1aW storedBW []).2.2.2.2.1 rfl
    rw [h]; rfl
  · have h := (preference_merge dAW reqC1aW storedBW []).1
    rw [h]; rfl
  · exact (preference_merge dAW reqC1bW storedBW []).2.2.2.2.2.1 "Chicago" rfl (by decide)

/-- Counterexample to C9 as stated: with a stored conversation already
holding seven turns and a request carrying no client-side history, the
preference extractor is called with all seven turns — more than the
claimed six-turn bound. -/
theorem extractor_window_cex :
    ((handle_chat dNW σ9W reqC9W).2.2.filterMap Effect.extractHistory).map List.length
      = [7] := rfl

theorem appendDedup_spec : ∀ (l : List PyMsg) (acc seen : List Msg),
    ∃ extra, appendDedup acc seen l = acc ++ extra ∧ ∀ x ∈ extra, x ∉ seen := by
  intro l
  induction l with
  | nil =>
    intro acc seen
    exact ⟨[], by simp [appendDedup], by simp⟩
  | cons m rest ih =>
    intro acc seen
    cases hm : reqMsgOk m with
    | none =>
      obtain ⟨extra, h1, h2⟩ := ih acc seen
      refine ⟨extra, ?_, h2⟩
      rw [appendDedup, hm]
      exact h1
    | some mm =>
      by_cases hin : mm ∈ seen
      · obtain ⟨extra, h1, h2⟩ := ih acc seen
        refine ⟨extra, ?_, h2⟩
        rw [appendDedup, hm]
        dsimp only
        rw [if_pos hin]
        exact h1
      · obtain ⟨extra, h1, h2⟩ := ih (acc ++ [mm]) (mm :: seen)
        refine ⟨mm :: extra, ?_, ?_⟩
        · rw [appendDedup, hm]
          dsimp only
          rw [if_neg hin, h1]
          simp
        · intro x hx
          rcases List.mem_cons.mp hx with rfl | hx'
          · exact hin
          · intro hxs
            exact h2 x hx' (List.mem_cons_of_mem _ hxs)

/-- C9 (amended): the extractor's history window is the stored window
passed through unchanged (up to the store's 10-turn cap) when the request
carries no conversation history; only when the request does carry history
is the combined list truncated to the last six turns, and the request
turns it appends are deduplicated by (role, content) pair against what the
store already holds, appended after the stored turns. -/
theorem combined_history_window (reqHist : List PyMsg) (histMsgs : List Msg) :
    (reqHist = [] → combinedHistory reqHist histMsgs = histMsgs)
    ∧ (reqHist ≠ [] → (combinedHistory reqHist histMsgs).length ≤ 6)
    ∧ (reqHist ≠ [] → ∃ extra, (∀ x ∈ extra, x ∉ histMsgs)
        ∧ (combinedHistory reqHist histMsgs = histMsgs ++ extra
           ∨ combinedHistory reqHist histMsgs
              = takeLast 6 (histMsgs ++ extra))) := by
  have hempty : ∀ h : reqHist ≠ [], reqHist.isEmpty = false := by
    intro h
    cases reqHist with
    | nil => exact absurd rfl h
    | cons a l => rfl
  refine ⟨?_, ?_, ?_⟩
  · intro h
    subst h
    rfl
  · intro h
    have hne := hempty h
    unfold combinedHistory
    rw [hne]
    simp only [Bool.false_eq_true, if_false]
    by_cases hlen : 6 < (appendDedup histMsgs histMsgs (takeLast 6 reqHist)).length
    · rw [if_pos hlen]
      have hdl : (takeLast 6 (appendDedup histMsgs histMsgs (takeLast 6 reqHist))).length
          = (appendDedup histMsgs histMsgs (takeLast 6 reqHist)).length
            - ((appendDedup histMsgs histMsgs (takeLast 6 reqHist)).length - 6) := by
        simp [takeLast]
      omega
    · rw [if_neg hlen]
      omega
  · intro h
    have hne := hempty h
    obtain ⟨extra, h1, h2⟩ := appendDedup_spec (takeLast 6 reqHist) histMsgs histMsgs
    refine ⟨extra, h2, ?_⟩
    have hcomb : combinedHistory reqHist histMsgs
        = if 6 < (histMsgs ++ extra).length then takeLast 6 (histMsgs ++ extra)
          else histMsgs ++ extra := by
      unfold combinedHistory
      rw [hne]
      simp only [Bool.false_eq_true, if_false]
      rw [h1]
    by_cases hlen : 6 < (histMsgs ++ extra).length
    · right
      rw [hcomb, if_pos hlen]
    · left
      rw [hcomb, if_neg hlen]

/-- Witness for the amended C9: an empty request history passes the seven
stored turns through unchanged; a non-empty one is truncated to six. -/
theorem combined_history_window_witness :
    combinedHistory [] msgs7W = msgs7W
    ∧ (combinedHistory
        [PyMsg.dict { role := some (.str "user"), content := some (.str "new") }]
        msgs7W).length ≤ 6 := by
  constructor
  · exact (combined_history_window [] msgs7W).1 rfl
  · exact (combined_history_window _ msgs7W).2.1 (by decide)

end LocalLife
